import Mathlib

/-!
Verification development for the LMArena bridge server (api_server.py).

The Python source is shallowly embedded: JSON dictionaries become
association lists or structures, mutation becomes explicit state
passing, and the asynchronous generator that parses the browser
stream becomes a recursive function from a list of inbound frames to
a list of emitted events.  Nondeterministic library calls
(uuid.uuid4) are modelled by a fixed placeholder string, and
json.loads is modelled on the shapes of JSON value that actually flow
through the bridge (string unescaping for content fragments, flat
string-valued objects for finish and error frames).
-/

set_option autoImplicit false

namespace Bridge

/-- Characters of a Python string; parsing runs on this form. -/
abbrev Chars := List Char

/-- The double-quote character. -/
def qc : Char := Char.ofNat 34
/-- The backslash character. -/
def bs : Char := Char.ofNat 92
/-- The newline character. -/
def nl : Char := Char.ofNat 10
/-- The opening curly brace character. -/
def lb : Char := Char.ofNat 123
/-- The closing curly brace character. -/
def rb : Char := Char.ofNat 125

/-- Python `needle in hay` on strings: substring membership. -/
def containsSub (needle : Chars) : Chars → Bool
  | [] => needle.isEmpty
  | c :: rest => needle.isPrefixOf (c :: rest) || containsSub needle rest

/-- Python `needle in hay` lifted to `String`. -/
def strContains (hay needle : String) : Bool :=
  containsSub needle.data hay.data

/-- detect_rate_limit_error from api_server.py: the content contains
both the substring 429 and the substring Too Many Requests. -/
def detect_rate_limit_error (content : String) : Bool :=
  strContains content "429" && strContains content "Too Many Requests"

/-- Association-list lookup, modelling Python dict access
(d.get(k) / d[k]). -/
def alGet {α : Type} (d : List (String × α)) (k : String) : Option α :=
  match d with
  | [] => none
  | (k', v) :: rest => if k' = k then some v else alGet rest k

/-- Association-list update, modelling Python dict assignment
(d[k] = v): replaces the value if the key is present, appends
otherwise. -/
def alSet {α : Type} (d : List (String × α)) (k : String) (v : α) :
    List (String × α) :=
  match d with
  | [] => [(k, v)]
  | (k', v') :: rest =>
    if k' = k then (k', v) :: rest else (k', v') :: alSet rest k v

/-- Association-list deletion, modelling Python del d[k]. -/
def alDel {α : Type} (d : List (String × α)) (k : String) :
    List (String × α) :=
  match d with
  | [] => []
  | (k', v') :: rest =>
    if k' = k then rest else (k', v') :: alDel rest k

/-- Python truthiness of an optional string: None and the empty
string are falsy. -/
def pyTruthyStr : Option String → Bool
  | none => false
  | some s => !s.isEmpty

/-- Python `a or b` where a is an optional string and b a string. -/
def pyOr (a : Option String) (b : String) : String :=
  match a with
  | some s => if s.isEmpty then b else s
  | none => b

/-- Python str.lower, over the character list so that it reduces in
the kernel (ASCII case folding as used by the bridge). -/
def pyLower (s : String) : String := String.mk (s.data.map Char.toLower)

/-! ## Credential pool (MODEL_ENDPOINT_MAP) and rotation -/

/-- One entry of MODEL_ENDPOINT_MAP (a JSON object per model name).
The numbered keys session_id0, message_id0, session_id1, ... of the
rotation format are modelled positionally by pairs: the pair at
position i stands for the keys session_id-i and message_id-i, so the
consecutive-key count of get_available_session_count is the list
length.  The legacy single-object format (bare session_id and
message_id keys, no current_index) keeps its own optional fields.
The legacy list format chosen by random.choice is not modelled. -/
structure ModelMapping where
  current_index : Option Nat
  pairs : List (String × String)
  session_id : Option String
  message_id : Option String
  mode : Option String
  battle_target : Option String
  deriving DecidableEq, Repr

/-- MODEL_ENDPOINT_MAP: model name to pool entry. -/
abbrev EndpointMap := List (String × ModelMapping)

/-- get_available_session_count from api_server.py: number of
consecutive numbered (session_id, message_id) pairs; positionally
this is the length of the pair list. -/
def get_available_session_count (m : ModelMapping) : Nat :=
  m.pairs.length

/-- rotate_model_session from api_server.py.  Returns the updated
MODEL_ENDPOINT_MAP, the success flag returned by the Python function,
and whether save_model_endpoint_map was called (the on-disk write). -/
def rotate_model_session (emap : EndpointMap) (model_name : String) :
    EndpointMap × Bool × Bool :=
  match alGet emap model_name with
  | none => (emap, false, false)
  | some m =>
    match m.current_index with
    | none => (emap, false, false)
    | some _ =>
      let current_index := m.current_index.getD 0
      let available_count := get_available_session_count m
      if available_count ≤ 1 then (emap, false, false)
      else
        let next_index := (current_index + 1) % available_count
        -- session_id-next and message_id-next must both be present
        if next_index < m.pairs.length then
          let m' := { m with current_index := some next_index }
          (alSet emap model_name m', true, true)
        else (emap, false, false)

/-- The apostrophe character, written by code so that source strings
stay free of literal quote characters. -/
def apo : String := String.mk [Char.ofNat 39]

/-- generate_rotation_message from api_server.py, success branch. -/
def rotationSuccessMessage (model_name : String) : String :=
  "🔄 **Sistema de Rotación Activado**\n\nHe detectado que el endpoint actual ha alcanzado su límite de velocidad para el modelo " ++ apo ++ model_name ++ apo ++ ". He rotado automáticamente al siguiente endpoint disponible.\n\n**Por favor, reenvía tu mensaje anterior para continuar con la conversación.**\n\n*Este es un mensaje automático del sistema de rotación de Adri, pipipipi.*"

/-- generate_rotation_message from api_server.py, failure branch: the
hint telling the caller to add more session IDs for the model. -/
def rotationFailureMessage (model_name : String) : String :=
  "⚠️ **Límite de Velocidad Detectado**\n\nHe detectado un límite de velocidad para el modelo " ++ apo ++ model_name ++ apo ++ ", pero no tengo endpoints adicionales configurados para rotar automáticamente.\n\n**Recomendaciones:**\n- Espera unos minutos antes de reintentar\n- Considera agregar más session IDs de respaldo para este modelo\n\n*Este es un mensaje automático del sistema de adri, kkkkkkkk.*"

/-- generate_rotation_message from api_server.py. -/
def generate_rotation_message (model_name : String)
    (rotation_success : Bool) : String :=
  if rotation_success then rotationSuccessMessage model_name
  else rotationFailureMessage model_name

/-- get_current_session_ids from api_server.py (rotation and legacy
dict formats; the legacy list format is not modelled). -/
def get_current_session_ids (emap : EndpointMap) (model_name : String) :
    Option String × Option String × Option String × Option String :=
  match alGet emap model_name with
  | none => (none, none, none, none)
  | some m =>
    match m.current_index with
    | some _ =>
      let i := m.current_index.getD 0
      ((m.pairs.get? i).map Prod.fst, (m.pairs.get? i).map Prod.snd,
        m.mode, m.battle_target)
    | none => (m.session_id, m.message_id, m.mode, m.battle_target)

/-! ## Auto-Claude cooldowns and selection -/

/-- AUTO_CLAUDE_PRIORITY from api_server.py. -/
def AUTO_CLAUDE_PRIORITY : List String :=
  [ "claude-opus-4-1-20250805-thinking-16k",
    "claude-opus-4-1-20250805",
    "claude-opus-4-20250514-thinking-16k",
    "claude-opus-4-20250514",
    "claude-3-7-sonnet-20250219",
    "claude-sonnet-4-20250514",
    "claude-3-5-sonnet-20241022" ]

/-- AUTO_CLAUDE_DISABLED_MODELS: model name mapped to the expiry
timestamp of its cooldown.  Timestamps are naturals; datetime.now()
at the moment of the call is the parameter now. -/
abbrev Cooldowns := List (String × Nat)

/-- MODEL_NAME_TO_ID_MAP: public model name to upstream model id. -/
abbrev Catalog := List (String × String)

/-- disable_model_for_auto_claude from api_server.py: cooldown for
one hour (3600 seconds) from now. -/
def disable_model_for_auto_claude (now : Nat) (cd : Cooldowns)
    (model_name : String) : Cooldowns :=
  alSet cd model_name (now + 3600)

/-- is_model_available_for_auto_claude from api_server.py.  The
Python function deletes an expired entry as a side effect, so the
model returns the updated table alongside the availability flag. -/
def is_model_available_for_auto_claude (now : Nat) (cd : Cooldowns)
    (model_name : String) : Bool × Cooldowns :=
  match alGet cd model_name with
  | none => (true, cd)
  | some until_ts =>
    if now > until_ts then (true, alDel cd model_name)
    else (false, cd)

/-- cleanup_expired_auto_claude_disables from api_server.py: drop
every entry whose expiry lies strictly in the past. -/
def cleanup_expired_auto_claude_disables (now : Nat) (cd : Cooldowns) :
    Cooldowns :=
  cd.filter (fun e => !(decide (now > e.2)))

/-- Walk of the priority list inside get_best_available_claude_model,
threading the cooldown table through is_model_available. -/
def autoClaudeWalk (now : Nat) (catalog : Catalog) :
    List String → Cooldowns → Option String × Cooldowns
  | [], cd => (none, cd)
  | m :: rest, cd =>
    let (avail, cd') := is_model_available_for_auto_claude now cd m
    if avail && (alGet catalog m).isSome then (some m, cd')
    else autoClaudeWalk now catalog rest cd'

/-- get_best_available_claude_model from api_server.py: reap expired
cooldowns, pick the first priority model that is available and in
the catalog, else fall back to the last priority entry. -/
def get_best_available_claude_model (now : Nat) (catalog : Catalog)
    (cd : Cooldowns) : String × Cooldowns :=
  let cd1 := cleanup_expired_auto_claude_disables now cd
  match autoClaudeWalk now catalog AUTO_CLAUDE_PRIORITY cd1 with
  | (some m, cd2) => (m, cd2)
  | (none, cd2) => (AUTO_CLAUDE_PRIORITY.getLast!, cd2)

/-! ## API key registry -/

/-- One record of api_keys.json.  Fields mirror the keys the code
reads: enabled (default true), usage_limit (optional cap),
usage_count (default 0), models (allow-list, empty means all). -/
structure KeyData where
  enabled : Bool := true
  usage_limit : Option Nat := none
  usage_count : Nat := 0
  models : List String := []
  deriving DecidableEq, Repr

/-- API_KEYS_DATA.api_keys: key string to record. -/
abbrev KeyStore := List (String × KeyData)

/-- Result of validate_api_key: either the key record or the error
string carried into the 401 detail. -/
inductive KeyCheck where
  | valid (global : Bool) (kd : KeyData)
  | invalid (error : String)
  deriving DecidableEq, Repr

/-- validate_api_key from api_server.py.  config_api_key is
CONFIG.get(api_key); catalog feeds the global-key record's model
list. -/
def validate_api_key (config_api_key : Option String)
    (catalog : Catalog) (keys : KeyStore) (api_key : String)
    (model_name : Option String) : KeyCheck :=
  if api_key.isEmpty then .invalid "API key requerida"
  else if pyTruthyStr config_api_key && (config_api_key = some api_key) then
    .valid true { enabled := true, usage_limit := none,
                  usage_count := 0, models := catalog.map Prod.fst }
  else
    match alGet keys api_key with
    | none => .invalid "API key inválida"
    | some key_data =>
      if !key_data.enabled then .invalid "API key deshabilitada"
      else if key_data.usage_limit.elim false
          (fun l => decide (key_data.usage_count ≥ l)) then
        .invalid "Límite de usos excedido"
      else
        match model_name with
        | some m =>
          if !key_data.models.isEmpty && !key_data.models.contains m then
            .invalid ("Modelo " ++ apo ++ m ++ apo ++
              " no permitido para esta API key")
          else .valid false key_data
        | none => .valid false key_data

/-- increment_api_key_usage from api_server.py: bump usage_count of
a managed key; the global config key is never counted.  The second
component is true when the store was mutated (and then written to
disk by save_api_keys). -/
def increment_api_key_usage (config_api_key : Option String)
    (keys : KeyStore) (api_key : String) : KeyStore × Bool :=
  if pyTruthyStr config_api_key && (config_api_key = some api_key) then
    (keys, false)
  else
    match alGet keys api_key with
    | none => (keys, false)
    | some kd =>
      (alSet keys api_key
        { kd with usage_count := kd.usage_count + 1 }, true)

/-- get_models_for_api_key from api_server.py. -/
def get_models_for_api_key (config_api_key : Option String)
    (catalog : Catalog) (keys : KeyStore) (api_key : String) :
    List String :=
  match validate_api_key config_api_key catalog keys api_key none with
  | .invalid _ => []
  | .valid _ kd =>
    if kd.models.isEmpty then catalog.map Prod.fst
    else kd.models.filter (fun m => (alGet catalog m).isSome)

/-! ## Configuration (config.jsonc) -/

/-- The subset of CONFIG that the request path reads.  Optional
fields model CONFIG.get with its per-call defaults. -/
structure Config where
  api_key : Option String := none
  tavern_mode_enabled : Option Bool := none
  bypass_enabled : Option Bool := none
  assistant_prefill_enabled : Option Bool := none
  id_updater_last_mode : Option String := none
  id_updater_battle_target : Option String := none
  use_default_ids_if_mapping_not_found : Option Bool := none
  session_id : Option String := none
  message_id : Option String := none
  stream_response_timeout_seconds : Option Nat := none
  deriving DecidableEq, Repr

/-- DEFAULT_MODEL_ID from api_server.py. -/
def DEFAULT_MODEL_ID : String := "f44e280a-7914-43ca-a25d-ecfcc5d48d09"

/-! ## Payload translator -/

/-- One part of an OpenAI list-form message content. -/
inductive OAPart where
  | textPart (text : String)
  | imagePart (url : Option String) (detail : Option String)
  | otherPart
  deriving DecidableEq, Repr

/-- OpenAI message content: a plain string or a list of parts. -/
inductive OAContent where
  | str (s : String)
  | parts (l : List OAPart)
  deriving DecidableEq, Repr

/-- Python truthiness of a message content value: empty strings and
empty lists are falsy. -/
def OAContent.truthy : OAContent → Bool
  | .str s => !s.isEmpty
  | .parts l => !l.isEmpty

/-- One OpenAI chat message. -/
structure OAMessage where
  role : String
  content : OAContent
  deriving DecidableEq, Repr

/-- One attachment extracted from a data URI. -/
structure Attachment where
  name : String
  contentType : String
  url : String
  deriving DecidableEq, Repr

/-- Result of _process_openai_message. -/
structure ProcessedMsg where
  role : String
  content : String
  attachments : List Attachment
  deriving DecidableEq, Repr

/-- The characters Python str.strip removes. -/
def pyWhitespace : List Char :=
  [' ', Char.ofNat 9, nl, Char.ofNat 13, Char.ofNat 11, Char.ofNat 12]

/-- Python `not s.strip()`: every character is whitespace. -/
def isPyBlank (s : String) : Bool :=
  s.data.all (fun c => pyWhitespace.contains c)

/-- content_type extraction url.split(semicolon)[0].split(colon)[1];
none models the IndexError branch (logged and skipped). -/
def dataUrlContentType (url : String) : Option String :=
  let beforeSemi := url.data.takeWhile (fun c => c ≠ ';')
  if beforeSemi.contains ':' then
    some (String.mk
      ((beforeSemi.dropWhile (fun c => c ≠ ':')).drop 1
        |>.takeWhile (fun c => c ≠ ':')))
  else none

/-- Placeholder standing in for the output of uuid.uuid4, whose
randomness a pure embedding cannot reproduce. -/
def uuidPlaceholder : String := "00000000-0000-4000-8000-000000000000"

/-- mimetypes.guess_extension, modelled on a subset of the stdlib
table large enough for the claims; none stands for an unknown type. -/
def guess_extension (contentType : String) : Option String :=
  alGet
    [ ("image/png", ".png"), ("image/jpeg", ".jpg"),
      ("image/gif", ".gif"), ("image/webp", ".webp"),
      ("audio/mpeg", ".mp3"), ("audio/wav", ".wav"),
      ("application/pdf", ".pdf"), ("text/plain", ".txt") ]
    contentType

/-- Attachment construction for one data URI inside
_process_openai_message. -/
def mkAttachment (url : String) (detail : Option String) :
    Option Attachment :=
  match dataUrlContentType url with
  | none => none
  | some content_type =>
    match detail with
    | some original_filename =>
      if !original_filename.isEmpty then
        some { name := original_filename, contentType := content_type,
               url := url }
      else
        some { name := synthName content_type, contentType := content_type,
               url := url }
    | none =>
      some { name := synthName content_type, contentType := content_type,
             url := url }
where
  /-- Fallback name: prefix by main type, uuid, guessed extension. -/
  synthName (content_type : String) : String :=
    let mainType :=
      if content_type.data.contains '/' then
        String.mk (content_type.data.takeWhile (fun c => c ≠ '/'))
      else "application"
    let subType :=
      if content_type.data.contains '/' then
        String.mk ((content_type.data.dropWhile (fun c => c ≠ '/')).drop 1)
      else "octet-stream"
    let pre :=
      if mainType = "image" then "image"
      else if mainType = "audio" then "audio"
      else "file"
    let ext :=
      match guess_extension content_type with
      | some g => String.mk (g.data.dropWhile (fun c => c = '.'))
      | none => if subType.length < 20 then subType else "bin"
    pre ++ "_" ++ uuidPlaceholder ++ "." ++ ext

/-- _process_openai_message from api_server.py: split list-form
content into joined text plus attachments, floor empty user content
to a single space, allow empty assistant content. -/
def _process_openai_message (m : OAMessage) : ProcessedMsg :=
  let (text_content, attachments) :=
    match m.content with
    | .str s => (s, [])
    | .parts l =>
      let text_parts := l.filterMap (fun p =>
        match p with
        | .textPart t => some t
        | _ => none)
      let atts := l.filterMap (fun p =>
        match p with
        | .imagePart url detail =>
          match url with
          | some u =>
            if !u.isEmpty && "data:".isPrefixOf u then
              mkAttachment u detail
            else none
          | none => none
        | _ => none)
      (String.intercalate "\n\n" text_parts, atts)
  let text_content :=
    if m.role = "user" && isPyBlank text_content then " "
    else if m.role = "assistant" && isPyBlank text_content then ""
    else text_content
  { role := m.role, content := text_content, attachments := attachments }

/-- One entry of messageTemplates sent to the browser. -/
structure Template where
  role : String
  content : String
  attachments : List Attachment
  participantPosition : Option String := none
  deriving DecidableEq, Repr

/-- The payload produced by convert_openai_to_lmarena_payload. -/
structure LMPayload where
  message_templates : List Template
  target_model_id : String
  session_id : String
  message_id : String
  assistant_prefill : OAContent
  is_auto_claude : Bool
  deriving DecidableEq, Repr

/-- The OpenAI request body fields the translator reads. -/
structure OARequest where
  model : Option String := none
  messages : List OAMessage := []
  stream : Option Bool := none
  deriving DecidableEq, Repr

/-- Role normalization: developer becomes system. -/
def normalizeRole (m : OAMessage) : OAMessage :=
  if m.role = "developer" then { m with role := "system" } else m

/-- Participant position assignment (step 6 of the translator):
overwrites the position of every template according to mode and
battle target. -/
def assignPositions (mode target_participant : String)
    (ts : List Template) : List Template :=
  ts.map fun t =>
    if t.role = "system" then
      if mode = "battle" then
        { t with participantPosition := some target_participant }
      else { t with participantPosition := some "b" }
    else if mode = "battle" then
      { t with participantPosition := some target_participant }
    else { t with participantPosition := some "a" }

/-- The bypass sentinel turn appended when bypass mode is on. -/
def bypassSentinel : Template :=
  { role := "user", content := " ", attachments := [],
    participantPosition := some "a" }

/-- Steps 2-6 of convert_openai_to_lmarena_payload, applied to the
message list left after prefill extraction: per-message processing,
tavern merge, template construction, the bypass sentinel and the
participant-position assignment. -/
def buildTemplates (cfg : Config)
    (mode_override battle_target_override : Option String)
    (messages : List OAMessage) : List Template :=
  let processed_messages := messages.map _process_openai_message
  -- tavern mode
  let processed_messages :=
    if cfg.tavern_mode_enabled.getD false then
      let system_prompts :=
        (processed_messages.filter (fun m => m.role == "system")).map
          (fun m => m.content)
      let other_messages :=
        processed_messages.filter (fun m => !(m.role == "system"))
      let merged := String.intercalate "\n\n" system_prompts
      (if !merged.isEmpty then
        [{ role := "system", content := merged, attachments := [] :
            ProcessedMsg }]
       else []) ++ other_messages
    else processed_messages
  -- message templates
  let message_templates : List Template := processed_messages.map
    (fun m => { role := m.role, content := m.content,
                attachments := m.attachments })
  -- bypass mode
  let message_templates :=
    if cfg.bypass_enabled.getD false then
      message_templates ++ [bypassSentinel]
    else message_templates
  -- participant positions
  let mode := pyOr mode_override (cfg.id_updater_last_mode.getD "direct_chat")
  let target_participant :=
    pyLower (pyOr battle_target_override
      (cfg.id_updater_battle_target.getD "A"))
  assignPositions mode target_participant message_templates

/-- Step 1 of convert_openai_to_lmarena_payload: the assistant
prefill extraction after role normalization.  Returns the remaining
messages and the extracted prefill content. -/
def extractAssistantPrefills (cfg : Config)
    (messages : List OAMessage) : List OAMessage × OAContent :=
  match messages.getLast? with
  | some last =>
    if cfg.assistant_prefill_enabled.getD true &&
        last.role == "assistant" then
      (messages.dropLast, last.content)
    else if !(cfg.assistant_prefill_enabled.getD true) &&
        last.role == "assistant" then
      (messages.dropLast ++ [{ last with role := "user" }],
        OAContent.str "")
    else (messages, OAContent.str "")
  | none => (messages, OAContent.str "")

/-- convert_openai_to_lmarena_payload from api_server.py. -/
def convert_openai_to_lmarena_payload (cfg : Config)
    (catalog : Catalog) (openai_data : OARequest)
    (session_id message_id : String)
    (mode_override battle_target_override : Option String)
    (is_auto_claude : Bool) : LMPayload :=
  -- 1. role normalization and assistant-prefill extraction
  let messages := openai_data.messages.map normalizeRole
  let extracted := extractAssistantPrefills cfg messages
  -- 2-6. processing, tavern, bypass and positions
  let message_templates :=
    buildTemplates cfg mode_override battle_target_override extracted.1
  -- target model id
  let model_name := (openai_data.model).getD "claude-3-5-sonnet-20241022"
  let target_model_id := (alGet catalog model_name).getD DEFAULT_MODEL_ID
  { message_templates := message_templates,
    target_model_id := target_model_id,
    session_id := session_id, message_id := message_id,
    assistant_prefill := extracted.2,
    is_auto_claude := is_auto_claude }

/-! ## Stream parser: regex scanners

text_pattern is the regex for content lines a0:"..." or b0:"...",
finish_pattern the regex for finish lines ad:... / bd:... carrying a
JSON object with a finishReason field, error_pattern the regex for
an embedded JSON error object.  Each is implemented as a leftmost
scanner whose behaviour matches the Python regex on the buffer. -/

/-- Scan the escaped body of a quoted fragment up to the closing
unescaped quote.  Mirrors the regex piece of text_pattern for the
group: a sequence of backslash-escape pairs (the escaped character
may not be a newline, since the regex dot excludes newlines) and
plain characters other than quote and backslash.  Returns the body
and the remainder after the closing quote; none when no such closing
quote exists, in which case the regex has no match at this start. -/
def scanBody : Chars → Option (Chars × Chars)
  | [] => none
  | c :: rest =>
    if c = qc then some ([], rest)
    else if c = bs then
      match rest with
      | [] => none
      | c2 :: rest2 =>
        if c2 = nl then none
        else (scanBody rest2).map (fun p => (c :: c2 :: p.1, p.2))
    else (scanBody rest).map (fun p => (c :: p.1, p.2))

/-- Attempt a text_pattern match anchored at the head of the buffer. -/
def tryTextAt : Chars → Option (Chars × Chars)
  | a :: z :: colon :: q :: rest =>
    if (a = 'a' || a = 'b') && z = '0' && colon = ':' && q = qc then
      scanBody rest
    else none
  | _ => none

/-- Leftmost text_pattern match: (text before the match, escaped
group, remainder after the match). -/
def findTextMatch : Chars → Option (Chars × Chars × Chars)
  | [] => none
  | c :: rest =>
    match tryTextAt (c :: rest) with
    | some (body, after) => some ([], body, after)
    | none =>
      (findTextMatch rest).map (fun r => (c :: r.1, r.2.1, r.2.2))

/-- Value of a hexadecimal digit. -/
def hexVal (c : Char) : Option Nat :=
  let n := c.toNat
  if 48 ≤ n && n ≤ 57 then some (n - 48)
  else if 97 ≤ n && n ≤ 102 then some (n - 87)
  else if 65 ≤ n && n ≤ 70 then some (n - 55)
  else none

/-- Four hexadecimal digits. -/
def hex4 (a b c d : Char) : Option Nat := do
  let x ← hexVal a
  let y ← hexVal b
  let z ← hexVal c
  let w ← hexVal d
  pure (((x * 16 + y) * 16 + z) * 16 + w)

/-- JSON string unescaping: the effect of json.loads on a quoted
fragment.  Handles the simple escapes and uXXXX including surrogate
pairs; an invalid escape, an unescaped control character, or a lone
surrogate yields none (json.loads raises for the first two; a lone
surrogate has no Char representation and is modelled as failure). -/
def unescapeChars : Chars → Option Chars
  | [] => some []
  | c :: rest =>
    if c = bs then
      match rest with
      | [] => none
      | e :: rest2 =>
        if e = qc then (unescapeChars rest2).map (qc :: ·)
        else if e = bs then (unescapeChars rest2).map (bs :: ·)
        else if e = '/' then (unescapeChars rest2).map ('/' :: ·)
        else if e = 'b' then (unescapeChars rest2).map (Char.ofNat 8 :: ·)
        else if e = 'f' then (unescapeChars rest2).map (Char.ofNat 12 :: ·)
        else if e = 'n' then (unescapeChars rest2).map (nl :: ·)
        else if e = 'r' then (unescapeChars rest2).map (Char.ofNat 13 :: ·)
        else if e = 't' then (unescapeChars rest2).map (Char.ofNat 9 :: ·)
        else if e = 'u' then
          match rest2 with
          | h1 :: h2 :: h3 :: h4 :: rest3 =>
            match hex4 h1 h2 h3 h4 with
            | none => none
            | some n =>
              if n < 55296 || 57344 ≤ n then
                (unescapeChars rest3).map (Char.ofNat n :: ·)
              else if n < 56320 then
                match rest3 with
                | c2 :: u2 :: h5 :: h6 :: h7 :: h8 :: rest4 =>
                  if c2 = bs && u2 = 'u' then
                    match hex4 h5 h6 h7 h8 with
                    | some m =>
                      if 56320 ≤ m && m < 57344 then
                        (unescapeChars rest4).map
                          (Char.ofNat
                            (65536 + (n - 55296) * 1024 + (m - 56320)) :: ·)
                      else none
                    | none => none
                  else none
                | _ => none
              else none
          | _ => none
        else none
    else if c.toNat < 32 then none
    else if c = qc then none
    else (unescapeChars rest).map (c :: ·)

/-- Scan forward (never across a newline: the regex dot does not
match newlines) to the first occurrence of a literal; returns the
consumed text including the literal and the remainder after it. -/
def seekLit (lit : Chars) : Chars → Option (Chars × Chars)
  | [] => none
  | c :: rest =>
    if lit.isPrefixOf (c :: rest) then
      some (lit, (c :: rest).drop lit.length)
    else if c = nl then none
    else (seekLit lit rest).map (fun r => (c :: r.1, r.2))

/-- Scan forward (not across a newline) to the first closing brace. -/
def seekClose : Chars → Option (Chars × Chars)
  | [] => none
  | c :: rest =>
    if c = rb then some ([rb], rest)
    else if c = nl then none
    else (seekClose rest).map (fun r => (c :: r.1, r.2))

/-- The literal finishReason in quotes, as it appears in
finish_pattern. -/
def finishReasonLit : Chars := qc :: "finishReason".data ++ [qc]

/-- Attempt a finish_pattern match anchored at the head: ad: or bd:
followed by an object region that contains the quoted finishReason
key and extends lazily to the first closing brace. -/
def tryFinishAt : Chars → Option (Chars × Chars)
  | a :: d :: colon :: brace :: rest =>
    if (a = 'a' || a = 'b') && d = 'd' && colon = ':' && brace = lb then
      match seekLit finishReasonLit rest with
      | none => none
      | some (p1, r1) =>
        match seekClose r1 with
        | none => none
        | some (p2, r2) => some (lb :: (p1 ++ p2), r2)
    else none
  | _ => none

/-- Leftmost finish_pattern match: (group, remainder after). -/
def findFinishMatch : Chars → Option (Chars × Chars)
  | [] => none
  | c :: rest =>
    match tryFinishAt (c :: rest) with
    | some (g, after) => some (g, after)
    | none => findFinishMatch rest

/-- Scan forward over any characters (the error regex is compiled
with DOTALL) to the first closing brace. -/
def seekCloseAny : Chars → Option (Chars × Chars)
  | [] => none
  | c :: rest =>
    if c = rb then some ([rb], rest)
    else (seekCloseAny rest).map (fun r => (c :: r.1, r.2))

/-- The literal error key in quotes, as it appears in error_pattern. -/
def errorKeyLit : Chars := qc :: "error".data ++ [qc]

/-- Attempt an error_pattern match anchored at the head: an opening
brace, optional whitespace, the quoted error key, then lazily up to
the first closing brace. -/
def tryErrAt : Chars → Option (Chars × Chars)
  | [] => none
  | c :: rest =>
    if c = lb then
      let ws := rest.takeWhile (fun x => pyWhitespace.contains x)
      let rest2 := rest.dropWhile (fun x => pyWhitespace.contains x)
      if errorKeyLit.isPrefixOf rest2 then
        match seekCloseAny (rest2.drop errorKeyLit.length) with
        | some (p2, r2) =>
          some (lb :: (ws ++ errorKeyLit ++ p2), r2)
        | none => none
      else none
    else none

/-- Leftmost error_pattern match: (group, remainder after). -/
def findErrMatch : Chars → Option (Chars × Chars)
  | [] => none
  | c :: rest =>
    match tryErrAt (c :: rest) with
    | some (g, after) => some (g, after)
    | none => findErrMatch rest

/-! ## json.loads on flat objects

The finish and error groups are decoded by json.loads and then read
with .get.  The objects that flow here are flat JSON objects with
string keys and string values; the decoder is modelled on exactly
that subset, any other shape counting as a decode failure (the
Python code swallows decode failures). -/

/-- JSON whitespace. -/
def jsonWs : List Char := [' ', Char.ofNat 9, nl, Char.ofNat 13]

/-- Drop JSON whitespace. -/
def skipWs (s : Chars) : Chars := s.dropWhile (fun c => jsonWs.contains c)

/-- Parse one JSON string literal, returning the decoded string and
the remainder. -/
def parseJString (s : Chars) : Option (String × Chars) :=
  match s with
  | c :: rest =>
    if c = qc then
      match scanBody rest with
      | some (body, after) =>
        match unescapeChars body with
        | some t => some (String.mk t, after)
        | none => none
      | none => none
    else none
  | [] => none

/-- Parse the members of a flat string-valued object after the
opening brace, fuel-bounded by the input length. -/
def parseMembers : Nat → Chars → Option (List (String × String) × Chars)
  | 0, _ => none
  | fuel + 1, s =>
    match parseJString (skipWs s) with
    | none => none
    | some (k, r1) =>
      match skipWs r1 with
      | c :: r2 =>
        if c = ':' then
          match parseJString (skipWs r2) with
          | none => none
          | some (v, r3) =>
            match skipWs r3 with
            | c2 :: r4 =>
              if c2 = ',' then
                (parseMembers fuel r4).map
                  (fun p => ((k, v) :: p.1, p.2))
              else if c2 = rb then some ([(k, v)], r4)
              else none
            | [] => none
        else none
      | [] => none

/-- json.loads restricted to flat string-valued objects; none for
every other input (modelling the decode-failure branch). -/
def parseFlatObj (s : Chars) : Option (List (String × String)) :=
  match skipWs s with
  | c :: rest =>
    if c = lb then
      match skipWs rest with
      | c2 :: r2 =>
        if c2 = rb then
          if (skipWs r2).isEmpty then some [] else none
        else
          match parseMembers (rest.length + 1) rest with
          | some (obj, leftover) =>
            if (skipWs leftover).isEmpty then some obj else none
          | none => none
      | [] => none
    else none
  | [] => none

/-! ## Stream parser: frames, events and the processing loop -/

/-- A control object received from the browser (a JSON dict frame). -/
structure CtrlData where
  rate_limit_detected : Bool := false
  model_id : Option String := none
  original_error : Option String := none
  error : Option String := none
  deriving DecidableEq, Repr

/-- One inbound frame from the per-request queue: a string fragment,
a list of fragments, or a control dict.  The end marker is the text
frame whose string is the DONE sentinel. -/
inductive Frame where
  | text (s : String)
  | texts (l : List String)
  | control (c : CtrlData)
  deriving DecidableEq, Repr

/-- The DONE sentinel string. -/
def doneMarker : String := "[DONE]"

/-- One event produced by _process_lmarena_stream.  crash models an
uncaught TypeError when a control dict carries neither the
rate-limit flag nor an error key and reaches the string
concatenation. -/
inductive Event where
  | content (s : String)
  | finish (reason : String)
  | error (msg : String)
  | crash (msg : String)
  deriving DecidableEq, Repr

/-- A command sent over the browser socket during parsing. -/
inductive Command where
  | refresh
  | switchModel (request_id : String)
      (new_session_id new_message_id new_model_id : Option String)
  deriving DecidableEq, Repr

/-- The mutable server state the parser touches. -/
structure ParserCtx where
  endpointMap : EndpointMap
  activeAuto : List (String × String)
  cooldowns : Cooldowns
  catalog : Catalog
  browserConnected : Bool
  now : Nat
  deriving DecidableEq, Repr

/-- Timeout error text. -/
def timeoutMessage (timeout : Nat) : String :=
  "La respuesta expiró después de " ++ toString timeout ++ " segundos."

/-- Rotation fallback text when the model cannot be identified. -/
def fallbackRotationMessage : String :=
  "🔄 He detectado un límite de velocidad, pero no pude identificar el modelo específico para rotar automáticamente. Por favor, reintenta tu solicitud en unos minutos."

/-- Friendly 413 attachment error text. -/
def attachment413Message : String :=
  "Error de carga: El tamaño del adjunto excede el límite del servidor de LMArena (generalmente alrededor de 5 MB). Intente comprimir el archivo o cargar un archivo más pequeño."

/-- Cloudflare interstitial error text. -/
def cloudflareMessage : String :=
  "Se detectó la página de verificación humana de Cloudflare. Actualice la página de LMArena en su navegador y complete la verificación manualmente, luego vuelva a intentar la solicitud."

/-- Error text when a model switch is needed with no browser. -/
def noBrowserSwitchMessage : String :=
  "No se pudo cambiar de modelo automáticamente porque el navegador no está conectado."

/-- The visible auto-claude switch notice. -/
def autoSwitchMessage (current next : String) : String :=
  "🔄 **Auto-Claude:** Límite de velocidad detectado para " ++ apo ++
    current ++ apo ++ ". Cambiando a " ++ apo ++ next ++ apo ++ "..."

/-- Lowercase a character sequence. -/
def toLowerChars (s : Chars) : Chars := s.map Char.toLower

/-- The opening piece of the Cloudflare title pattern, lowered. -/
def cfOpen : Chars := "<title>just a moment".data
/-- The closing piece of the Cloudflare title pattern, lowered. -/
def cfClose : Chars := "</title>".data

/-- Case-insensitive scan for the first Cloudflare title pattern:
the title piece, three arbitrary non-newline characters (the regex
dots), then the closing tag.  Operates on a lowered buffer. -/
def cfTitleScan : Chars → Bool
  | [] => false
  | c :: rest =>
    (cfOpen.isPrefixOf (c :: rest) &&
      (match (c :: rest).drop cfOpen.length with
       | c1 :: c2 :: c3 :: r =>
         decide (c1 ≠ nl) && decide (c2 ≠ nl) && decide (c3 ≠ nl) &&
           cfClose.isPrefixOf r
       | _ => false)) ||
    cfTitleScan rest

/-- Case-insensitive search for either cloudflare_patterns entry. -/
def cloudflareHit (s : String) : Bool :=
  let low := toLowerChars s.data
  cfTitleScan low ||
    containsSub "enable javascript and cookies to continue".data low

/-- The rate-limit rotation block shared by the buffer and fragment
checks: rotate when the model name is known, else apologize. -/
def rotationEvents (emap : EndpointMap) (model_name : Option String) :
    List Event × EndpointMap :=
  match model_name with
  | some name =>
    let r := rotate_model_session emap name
    ([.content (generate_rotation_message name r.2.1), .finish "stop"],
      r.1)
  | none => ([.content fallbackRotationMessage, .finish "stop"], emap)

/-- Reverse catalog lookup: first model name mapped to the id. -/
def lookupNameById (catalog : Catalog) (mid : String) : Option String :=
  (catalog.find? (fun p => p.2 = mid)).map Prod.fst

/-- Handling of a control dict frame (section 1 of the processing
loop); every branch returns, ending the generator. -/
def handleControl (request_id : String) (_model_name : Option String)
    (ctx : ParserCtx) (c : CtrlData) :
    List Event × ParserCtx × List Command :=
  if c.rate_limit_detected then
    match alGet ctx.activeAuto request_id with
    | some current_model =>
      let cd1 := disable_model_for_auto_claude ctx.now ctx.cooldowns
        current_model
      let (next_model, cd2) :=
        get_best_available_claude_model ctx.now ctx.catalog cd1
      let ctx' := { ctx with
        cooldowns := cd2,
        activeAuto := alSet ctx.activeAuto request_id next_model }
      let notice := Event.content (autoSwitchMessage current_model
        next_model)
      if ctx.browserConnected then
        let ids := get_current_session_ids ctx'.endpointMap next_model
        ([notice], ctx',
          [.switchModel request_id ids.1 ids.2.1
            (alGet ctx.catalog next_model)])
      else ([notice, .error noBrowserSwitchMessage], ctx', [])
    | none =>
      match c.model_id.bind (lookupNameById ctx.catalog) with
      | some detected =>
        let r := rotate_model_session ctx.endpointMap detected
        ([.content (generate_rotation_message detected r.2.1),
          .finish "stop"], { ctx with endpointMap := r.1 }, [])
      | none =>
        ([.content fallbackRotationMessage, .finish "stop"], ctx, [])
  else
    match c.error with
    | some error_msg =>
      if strContains error_msg "413" ||
          strContains (String.mk (toLowerChars error_msg.data))
            "too large" then
        ([.error attachment413Message], ctx, [])
      else if cloudflareHit error_msg then
        ([.error cloudflareMessage], ctx,
          if ctx.browserConnected then [.refresh] else [])
      else ([.error error_msg], ctx, [])
    | none =>
      -- neither key: the dict reaches buffer concatenation and
      -- raises TypeError, crashing the generator
      ([.crash "TypeError"], ctx, [])

/-- Result of the inner text-consumption while loop. -/
inductive TextLoopRes where
  | rl (es : List Event) (emap : EndpointMap)
  | ok (es : List Event) (buf : Chars)
  deriving DecidableEq, Repr

/-- The while loop over text_pattern matches.  Fuel decreases by one
per match; each match consumes at least five characters of the
buffer, so length-plus-one fuel never runs out. -/
def consumeTexts (model_name : Option String) (emap : EndpointMap) :
    Nat → Chars → TextLoopRes
  | 0, buf => .ok [] buf
  | fuel + 1, buf =>
    match findTextMatch buf with
    | none => .ok [] buf
    | some (_, body, after) =>
      match unescapeChars body with
      | none => consumeTexts model_name emap fuel after
      | some tcs =>
        let t := String.mk tcs
        if t.isEmpty then consumeTexts model_name emap fuel after
        else if detect_rate_limit_error t then
          let (es, emap') := rotationEvents emap model_name
          .rl es emap'
        else
          match consumeTexts model_name emap fuel after with
          | .rl es emap' => .rl (.content t :: es) emap'
          | .ok es buf' => .ok (.content t :: es) buf'

/-- Result of processing one buffered chunk: halt ends the
generator, more carries the leftover buffer to the next frame. -/
inductive StepRes where
  | halt (es : List Event) (ctx : ParserCtx) (cs : List Command)
  | more (es : List Event) (ctx : ParserCtx) (cs : List Command)
      (buf : Chars)
  deriving DecidableEq, Repr

/-- Sections 2-5 of the processing loop body, run after a string
frame has been appended to the buffer: the inline rate-limit check,
the Cloudflare check, the error-object scan, the text while loop and
the single finish scan. -/
def processChunk (model_name : Option String) (ctx : ParserCtx)
    (buf : Chars) : StepRes :=
  if detect_rate_limit_error (String.mk buf) then
    let (es, emap') := rotationEvents ctx.endpointMap model_name
    .halt es { ctx with endpointMap := emap' } []
  else if cloudflareHit (String.mk buf) then
    .halt [.error cloudflareMessage] ctx
      (if ctx.browserConnected then [.refresh] else [])
  else
    let errEvent : Option (List Event) :=
      match findErrMatch buf with
      | some (g, _) =>
        match parseFlatObj g with
        | some obj =>
          some [.error ((alGet obj "error").getD
            "Error desconocido de LMArena")]
        | none => none
      | none => none
    match errEvent with
    | some es => .halt es ctx []
    | none =>
      match consumeTexts model_name ctx.endpointMap (buf.length + 1)
          buf with
      | .rl es emap' => .halt es { ctx with endpointMap := emap' } []
      | .ok es buf' =>
        match findFinishMatch buf' with
        | some (g, after) =>
          match parseFlatObj g with
          | some obj =>
            .more (es ++ [.finish ((alGet obj "finishReason").getD
              "stop")]) ctx [] after
          | none => .more es ctx [] after
        | none => .more es ctx [] buf'

/-- _process_lmarena_stream from api_server.py, as a function from
the list of frames the queue will yield to the events the generator
yields, the final server state, and the commands written to the
browser socket.  Running out of frames models the queue timeout. -/
def processFrames (request_id : String) (model_name : Option String)
    (timeout : Nat) :
    ParserCtx → Chars → List Frame →
      List Event × ParserCtx × List Command
  | ctx, _, [] => ([.error (timeoutMessage timeout)], ctx, [])
  | ctx, _, .control c :: _ => handleControl request_id model_name ctx c
  | ctx, buf, .text s :: rest =>
    if s = doneMarker then ([], ctx, [])
    else
      match processChunk model_name ctx (buf ++ s.data) with
      | .halt es ctx' cs => (es, ctx', cs)
      | .more es ctx' cs b' =>
        let r := processFrames request_id model_name timeout ctx' b' rest
        (es ++ r.1, r.2.1, cs ++ r.2.2)
  | ctx, buf, .texts l :: rest =>
    match processChunk model_name ctx (buf ++ (String.join l).data) with
    | .halt es ctx' cs => (es, ctx', cs)
    | .more es ctx' cs b' =>
      let r := processFrames request_id model_name timeout ctx' b' rest
      (es ++ r.1, r.2.1, cs ++ r.2.2)

/-! ## SSE formatting (stream_generator) -/

/-- One SSE chunk at the delta level: a content delta or the final
finish chunk followed by the DONE terminator. -/
inductive Chunk where
  | content (c : OAContent)
  | finishDone (reason : String)
  deriving DecidableEq, Repr

/-- The fixed explanatory sentence appended on content-filter. -/
def contentFilterNotice : String :=
  "\n\nLa respuesta fue terminada, posiblemente debido al límite de contexto o a la censura interna del modelo (muy probable)."

/-- format_openai_error_chunk content text. -/
def errorChunkText (msg : String) : String :=
  "\n\n[Error del Puente LMArena]: " ++ msg

/-- The event loop of stream_generator: one content chunk per
content event, a recorded finish reason plus the content-filter
notice, an early error exit, and the final finish chunk once the
parser ends naturally.  A crash aborts the stream with no finish
chunk. -/
def sseOfEvents (finish_reason_to_send : String) :
    List Event → List Chunk
  | [] => [.finishDone finish_reason_to_send]
  | .content s :: es => .content (.str s) :: sseOfEvents finish_reason_to_send es
  | .finish r :: es =>
    (if r = "content-filter" then
      [Chunk.content (.str contentFilterNotice)]
     else []) ++ sseOfEvents r es
  | .error m :: _ =>
    [.content (.str (errorChunkText m)), .finishDone "stop"]
  | .crash _ :: _ => []

/-- stream_generator from api_server.py, over the parser's event
list: the prefill chunk first when the prefill is truthy, then the
event loop with default finish reason stop. -/
def stream_generator (assistant_prefill : OAContent)
    (events : List Event) : List Chunk :=
  (if assistant_prefill.truthy then [Chunk.content assistant_prefill]
   else []) ++ sseOfEvents "stop" events

/-- The concatenation of the SSE content deltas.  A parts-valued
prefill would be serialized by json.dumps; only string deltas carry
text. -/
def contentDeltas : List Chunk → String
  | [] => ""
  | c :: rest =>
    (match c with
     | .content (.str s) => s
     | _ => "") ++ contentDeltas rest

/-! ## Request orchestrator: chat_completions and get_models -/

/-- Observable side effects along the chat_completions path, in the
order the code performs them. -/
inductive Effect where
  | bodyParsed
  | authOk (key : String)
  | usageBumped (key : String)
  | channelCreated (request_id : String)
  | payloadTranslated
  | sentToBrowser
  deriving DecidableEq, Repr

/-- An HTTPException raised by a handler. -/
structure HttpError where
  status : Nat
  detail : String
  deriving DecidableEq, Repr

/-- A successfully dispatched request. -/
structure Dispatch where
  request_id : String
  payload : LMPayload
  is_stream : Bool
  model_name : Option String
  deriving DecidableEq, Repr

/-- The process-level state chat_completions reads and writes. -/
structure ServerState where
  cfg : Config
  catalog : Catalog
  keys : KeyStore
  endpointMap : EndpointMap
  cooldowns : Cooldowns
  activeAuto : List (String × String)
  browserConnected : Bool
  now : Nat
  deriving DecidableEq, Repr

/-- Result of one chat_completions call: an HTTPException or a
dispatched request. -/
inductive ChatResult where
  | httpError (e : HttpError)
  | dispatched (d : Dispatch)
  deriving DecidableEq, Repr

/-- Outcome of one chat_completions call. -/
structure ChatOutcome where
  result : ChatResult
  state : ServerState
  trace : List Effect
  deriving DecidableEq, Repr

/-- An incoming POST /v1/chat/completions request: whether the body
parsed as JSON, the bearer token extracted from the Authorization
header (none models a missing or malformed header), and the parsed
body. -/
structure ChatRequest where
  bodyOk : Bool := true
  bearerToken : Option String := none
  body : OARequest := {}
  deriving DecidableEq, Repr

/-- HTTPException constructor shorthand. -/
def httpErr (status : Nat) (detail : String) : HttpError :=
  { status := status, detail := detail }

/-- 401 detail for a missing Authorization header. -/
def noKeyDetail : String :=
  "No se proporcionó una clave de API. Por favor, proporciónela en la cabecera de Autorización en formato " ++ apo ++ "Bearer SU_CLAVE" ++ apo ++ "."

/-- 503 detail when no browser is connected. -/
def browserNotConnectedDetail : String :=
  "El cliente del script de Tampermonkey no está conectado. Asegúrese de que la página de LMArena esté abierta y el script activado."

/-- 400 detail when the model has no mapping and fallback is off. -/
def noMappingDetail (model_name : Option String) : String :=
  "El modelo " ++ apo ++ (model_name.getD "None") ++ apo ++
  " no tiene un ID de sesión independiente configurado. Agregue un mapeo válido en " ++ apo ++ "model_endpoint_map.json" ++ apo ++ " o habilite " ++ apo ++ "use_default_ids_if_mapping_not_found" ++ apo ++ " en " ++ apo ++ "config.jsonc" ++ apo ++ "."

/-- 400 detail when the resolved session information is invalid. -/
def invalidSessionDetail : String :=
  "El ID de sesión o el ID de mensaje finalmente determinados son inválidos. Verifique la configuración en " ++ apo ++ "model_endpoint_map.json" ++ apo ++ " y " ++ apo ++ "config.jsonc" ++ apo ++ ", o ejecute \x60id_updater.py\x60 para actualizar los valores por defecto."

/-- The auto-claude model substitution at the top of the model
resolution: pick the best available model and record the active-auto
entry. -/
def autoChoose (st1 : ServerState) (model0 : Option String)
    (request_id : String) : Option String × ServerState :=
  if model0 = some "auto-claude" then
    let best := get_best_available_claude_model st1.now st1.catalog
      st1.cooldowns
    (some best.1, { st1 with
      cooldowns := best.2,
      activeAuto := alSet st1.activeAuto request_id best.1 })
  else (model0, st1)

/-- Session resolution for chat_completions: the per-model pool
tuple, the global-config fallback, and the final validity check. -/
def resolveSession (st2 : ServerState) (model_name : Option String) :
    Except HttpError (String × String × Option String × Option String) :=
  let ids :=
    match model_name with
    | some n => get_current_session_ids st2.endpointMap n
    | none => (none, none, none, none)
  let fallbackOn := st2.cfg.use_default_ids_if_mapping_not_found.getD true
  if !(pyTruthyStr ids.1) && !fallbackOn then
    .error (httpErr 400 (noMappingDetail model_name))
  else
    let resolved :=
      if !(pyTruthyStr ids.1) then
        (st2.cfg.session_id, st2.cfg.message_id,
          (none : Option String), (none : Option String))
      else ids
    if !(pyTruthyStr resolved.1) || !(pyTruthyStr resolved.2.1) ||
        strContains (resolved.1.getD "") "YOUR_" ||
        strContains (resolved.2.1.getD "") "YOUR_" then
      .error (httpErr 400 invalidSessionDetail)
    else .ok (resolved.1.getD "", resolved.2.1.getD "",
      resolved.2.2.1, resolved.2.2.2)

/-- The part of chat_completions after key verification: the
browser-slot check, model and session resolution, channel creation,
payload translation and the send to the browser. -/
def postAuth (st1 : ServerState) (req : ChatRequest)
    (request_id : String) (tr1 : List Effect) : ChatOutcome :=
  if !st1.browserConnected then
    { result := .httpError (httpErr 503 browserNotConnectedDetail),
      state := st1, trace := tr1 }
  else
    match resolveSession (autoChoose st1 req.body.model request_id).2
        (autoChoose st1 req.body.model request_id).1 with
    | .error e =>
      { result := .httpError e,
        state := (autoChoose st1 req.body.model request_id).2,
        trace := tr1 }
    | .ok ids =>
      { result := .dispatched
          { request_id := request_id,
            payload := convert_openai_to_lmarena_payload
              (autoChoose st1 req.body.model request_id).2.cfg
              (autoChoose st1 req.body.model request_id).2.catalog
              req.body ids.1 ids.2.1 ids.2.2.1 ids.2.2.2
              (req.body.model = some "auto-claude"),
            is_stream := req.body.stream.getD true,
            model_name := (autoChoose st1 req.body.model request_id).1 },
        state := (autoChoose st1 req.body.model request_id).2,
        trace := tr1 ++ [.channelCreated request_id,
          .payloadTranslated, .sentToBrowser] }

/-- chat_completions from api_server.py, up to the point where the
payload has been written to the browser socket and a streaming or
aggregated response begins.  The last-activity update and the config
reload are environment effects outside the model. -/
def chat_completions (st : ServerState) (req : ChatRequest)
    (request_id : String) : ChatOutcome :=
  if !req.bodyOk then
    { result := .httpError
        (httpErr 400 "Cuerpo de la solicitud JSON inválido"),
      state := st, trace := [] }
  else
    let tr0 := [Effect.bodyParsed]
    -- API key verification: runs whenever a global key is configured
    -- or any managed key exists
    let authStep : Except HttpError (ServerState × List Effect) :=
      if pyTruthyStr st.cfg.api_key || !st.keys.isEmpty then
        match req.bearerToken with
        | none => .error (httpErr 401 noKeyDetail)
        | some provided_key =>
          match validate_api_key st.cfg.api_key st.catalog st.keys
              provided_key req.body.model with
          | .invalid e => .error (httpErr 401 e)
          | .valid _ _ =>
            let bump := increment_api_key_usage st.cfg.api_key st.keys
              provided_key
            .ok ({ st with keys := bump.1 },
              tr0 ++ [.authOk provided_key] ++
                (if bump.2 then [.usageBumped provided_key] else []))
      else .ok (st, tr0)
    match authStep with
    | .error e => { result := .httpError e, state := st, trace := tr0 }
    | .ok (st1, tr1) =>
      -- browser connection check comes after the key verification
      postAuth st1 req request_id tr1

/-- Result of one GET /v1/models call. -/
inductive ModelsResult where
  | httpError (e : HttpError)
  | modelList (l : List String)
  deriving DecidableEq, Repr

/-- Outcome of one GET /v1/models call. -/
structure ModelsOutcome where
  result : ModelsResult
  keys : KeyStore
  trace : List Effect
  deriving DecidableEq, Repr

/-- get_models from api_server.py: the filtered model list.  The
endpoint reads the key registry but never mutates it. -/
def get_models (st : ServerState) (bearerToken : Option String) :
    ModelsOutcome :=
  if st.catalog.isEmpty then
    { result := .httpError (httpErr 404
        ("La lista de modelos está vacía o no se encontró " ++
          apo ++ "models.json" ++ apo ++ ".")),
      keys := st.keys, trace := [] }
  else if pyTruthyStr st.cfg.api_key || !st.keys.isEmpty then
    match bearerToken with
    | none =>
      { result := .httpError (httpErr 401
          "API key requerida para acceder a la lista de modelos."),
        keys := st.keys, trace := [] }
    | some api_key =>
      if (get_models_for_api_key st.cfg.api_key st.catalog st.keys
          api_key).isEmpty then
        match validate_api_key st.cfg.api_key st.catalog st.keys
            api_key none with
        | .invalid e =>
          { result := .httpError (httpErr 401 e),
            keys := st.keys, trace := [] }
        | .valid _ _ =>
          { result := .modelList [], keys := st.keys,
            trace := [.authOk api_key] }
      else
        { result := .modelList (get_models_for_api_key st.cfg.api_key
            st.catalog st.keys api_key),
          keys := st.keys, trace := [.authOk api_key] }
  else
    { result := .modelList (st.catalog.map Prod.fst), keys := st.keys,
      trace := [] }

/-! ## Multiplexer disconnect cleanup -/

/-- The multiplexer's own state: the single browser slot and the
request-channel table with each queue's current contents. -/
structure MuxState where
  browser_ws : Option String
  response_channels : List (String × List Frame)
  deriving DecidableEq, Repr

/-- The disconnect-error sentinel put on every waiting channel. -/
def disconnectSentinel : Frame :=
  .control { error := some "El navegador se desconectó durante la operación" }

/-- The finally block of websocket_endpoint: clear the browser slot,
put the disconnect sentinel on every channel in the table, then
clear the table.  Returns the new multiplexer state and each
notified queue with its delivered contents. -/
def websocket_cleanup (st : MuxState) :
    MuxState × List (String × List Frame) :=
  let notified := st.response_channels.map
    (fun p => (p.1, p.2 ++ [disconnectSentinel]))
  ({ browser_ws := none, response_channels := [] }, notified)

/-! ## Claim C1: per-model rotation -/

/-- C1.  For every model whose credential-pool entry has a
current_index and N numbered (session_id, message_id) pairs with
N >= 2, a rate-limit-triggered rotation sets current_index to
(old + 1) mod N and immediately saves the pool to
model_endpoint_map.json; if the pool has only one pair, rotation is
skipped (current_index unchanged, nothing saved) and the caller
instead receives the add-more-endpoints hint message. -/
theorem rotation_advances_mod_and_saves
    (emap : EndpointMap) (name : String) (m : ModelMapping)
    (old N : Nat)
    (hm : alGet emap name = some m)
    (hidx : m.current_index = some old)
    (hN : m.pairs.length = N) :
    (2 ≤ N →
      rotate_model_session emap name =
        (alSet emap name { m with current_index := some ((old + 1) % N) },
          true, true)) ∧
    (N = 1 →
      rotate_model_session emap name = (emap, false, false) ∧
      ∀ (reqId : String) (mname : Option String) (timeout : Nat)
        (ctx : ParserCtx) (buf : Chars) (rest : List Frame)
        (mid : String) (c : CtrlData),
        ctx.endpointMap = emap →
        alGet ctx.activeAuto reqId = none →
        lookupNameById ctx.catalog mid = some name →
        c.rate_limit_detected = true →
        c.model_id = some mid →
        processFrames reqId mname timeout ctx buf (.control c :: rest) =
          ([.content (rotationFailureMessage name), .finish "stop"],
            ctx, [])) := by
  constructor
  · intro h2
    have hpos : 0 < N := by omega
    have hmod : (old + 1) % N < N := Nat.mod_lt _ hpos
    simp only [rotate_model_session, hm, hidx, get_available_session_count,
      hN, Option.getD_some]
    rw [if_neg (by omega), if_pos (by omega)]
  · intro h1
    have hrot : rotate_model_session emap name = (emap, false, false) := by
      simp only [rotate_model_session, hm, hidx, get_available_session_count,
        hN, Option.getD_some]
      rw [if_pos (by omega)]
    refine ⟨hrot, ?_⟩
    intro reqId mname timeout ctx buf rest mid c hemap hauto hlook hrl hmid
    show handleControl reqId mname ctx c =
      ([.content (rotationFailureMessage name), .finish "stop"], ctx, [])
    simp [handleControl, hrl, hauto, hmid, hlook, hemap, hrot,
      generate_rotation_message]
    rw [← hemap]

/-- Concrete two-pair pool entry for the C1 witness. -/
def c1map : ModelMapping :=
  { current_index := some 0, pairs := [("s0", "m0"), ("s1", "m1")],
    session_id := none, message_id := none, mode := none,
    battle_target := none }

/-- Concrete endpoint map for the C1 witness. -/
def c1emap : EndpointMap := [("claude-opus-4-20250514", c1map)]

/-- Witness for C1 at a concrete pool with two pairs, hypotheses
discharged by computation. -/
theorem rotation_advances_mod_and_saves_witness :
    alGet c1emap "claude-opus-4-20250514" = some c1map ∧
    (2 ≤ 2 →
      rotate_model_session c1emap "claude-opus-4-20250514" =
        (alSet c1emap "claude-opus-4-20250514"
          { c1map with current_index := some ((0 + 1) % 2) },
          true, true)) := by
  refine ⟨by decide, ?_⟩
  exact (rotation_advances_mod_and_saves c1emap "claude-opus-4-20250514"
    c1map 0 2 (by decide) (by decide) (by decide)).1

/-! ## Claim C5: cooldown selection -/

theorem alGet_mem {α : Type} {d : List (String × α)} {k : String}
    {v : α} (h : alGet d k = some v) : (k, v) ∈ d := by
  induction d with
  | nil => simp [alGet] at h
  | cons q rest ih =>
    obtain ⟨k', v'⟩ := q
    by_cases hk : k' = k
    · subst hk
      simp [alGet] at h
      simp [h]
    · simp [alGet, hk] at h
      exact List.mem_cons_of_mem _ (ih h)

theorem alGet_cons {α : Type} (k' : String) (v' : α)
    (rest : List (String × α)) (k : String) :
    alGet ((k', v') :: rest) k =
      if k' = k then some v' else alGet rest k := rfl

theorem alGet_none_of_not_mem {α : Type} {d : List (String × α)}
    {k : String} (h : k ∉ d.map Prod.fst) : alGet d k = none := by
  induction d with
  | nil => rfl
  | cons q rest ih =>
    obtain ⟨k', v'⟩ := q
    simp only [List.map_cons, List.mem_cons, not_or] at h
    rw [alGet_cons, if_neg (fun he => h.1 he.symm), ih h.2]

theorem alGet_filter_nodup {α : Type} (p : String × α → Bool)
    (d : List (String × α)) (k : String)
    (hnd : (d.map Prod.fst).Nodup) :
    alGet (d.filter p) k =
      (alGet d k).bind (fun v => if p (k, v) then some v else none) := by
  induction d with
  | nil => rfl
  | cons q rest ih =>
    obtain ⟨k', v'⟩ := q
    simp only [List.map_cons, List.nodup_cons] at hnd
    rw [List.filter_cons]
    by_cases hk : k' = k
    · subst hk
      have hrest : alGet rest k' = none := alGet_none_of_not_mem hnd.1
      have hrestf : alGet (rest.filter p) k' = none := by
        rw [ih hnd.2, hrest]; rfl
      by_cases hp : p (k', v') <;>
        simp [hp, alGet_cons, hrest, hrestf]
    · by_cases hp : p (k', v') <;>
        simp [hp, alGet_cons, hk, ih hnd.2]

/-- First priority model that is not in the (reaped) cooldown table
and is present in the catalog: the model the selection walk picks. -/
def firstEligible (catalog : Catalog) (cd : Cooldowns) : Option String :=
  AUTO_CLAUDE_PRIORITY.find?
    (fun m => (alGet cd m).isNone && (alGet catalog m).isSome)

theorem autoClaudeWalk_clean (now : Nat) (catalog : Catalog)
    (l : List String) (cd : Cooldowns)
    (hcd : ∀ q ∈ cd, ¬ now > q.2) :
    autoClaudeWalk now catalog l cd =
      (l.find? (fun m => (alGet cd m).isNone && (alGet catalog m).isSome),
        cd) := by
  induction l with
  | nil => simp [autoClaudeWalk]
  | cons m rest ih =>
    cases hm : alGet cd m with
    | none =>
      by_cases hc : (alGet catalog m).isSome
      · simp [autoClaudeWalk, is_model_available_for_auto_claude, hm, hc,
          List.find?]
      · simp [autoClaudeWalk, is_model_available_for_auto_claude, hm, hc,
          List.find?, ih]
    | some e =>
      have hne : ¬ now > e := hcd (m, e) (alGet_mem hm)
      simp [autoClaudeWalk, is_model_available_for_auto_claude, hm, hne,
        List.find?, ih]

theorem cleanup_unexpired (now : Nat) (cd : Cooldowns) :
    ∀ q ∈ cleanup_expired_auto_claude_disables now cd, ¬ now > q.2 := by
  intro q hq
  have := List.mem_filter.mp hq
  simpa using this.2

theorem get_best_clean (now : Nat) (catalog : Catalog) (cd : Cooldowns) :
    get_best_available_claude_model now catalog cd =
      ((match firstEligible catalog
          (cleanup_expired_auto_claude_disables now cd) with
        | some m => m
        | none => AUTO_CLAUDE_PRIORITY.getLast!),
        cleanup_expired_auto_claude_disables now cd) := by
  have h := autoClaudeWalk_clean now catalog AUTO_CLAUDE_PRIORITY
    (cleanup_expired_auto_claude_disables now cd)
    (cleanup_unexpired now cd)
  simp only [get_best_available_claude_model, h, firstEligible]
  cases (AUTO_CLAUDE_PRIORITY.find?
      (fun m => (alGet (cleanup_expired_auto_claude_disables now cd)
        m).isNone && (alGet catalog m).isSome)) <;> rfl

/-- C5, amended.  As long as some priority model is eligible (its
cooldown entry absent or expired, and the model in the catalog), the
auto-claude selection returns the first eligible model, whose
cooldown expiry is not in the future; when no priority model is
eligible the selection returns the last priority entry as a forced
fallback (even if that model is still cooled down).  A model whose
expiry has passed (now > expiry) has its entry removed by the
selection and is eligible again on the very next selection. -/
theorem auto_selection_respects_cooldowns (now : Nat)
    (catalog : Catalog) (cd : Cooldowns)
    (hnd : (cd.map Prod.fst).Nodup) :
    (∀ m, firstEligible catalog
        (cleanup_expired_auto_claude_disables now cd) = some m →
      (get_best_available_claude_model now catalog cd).1 = m ∧
      ∀ e, alGet cd m = some e → now > e) ∧
    (firstEligible catalog
        (cleanup_expired_auto_claude_disables now cd) = none →
      (get_best_available_claude_model now catalog cd).1 =
        AUTO_CLAUDE_PRIORITY.getLast!) ∧
    (∀ m e, alGet cd m = some e → now > e →
      alGet (get_best_available_claude_model now catalog cd).2 m = none ∧
      (is_model_available_for_auto_claude now
        (get_best_available_claude_model now catalog cd).2 m).1 = true) := by
  have hclean : ∀ m, alGet (cleanup_expired_auto_claude_disables now cd) m =
      (alGet cd m).bind (fun e => if now > e then none else some e) := by
    intro m
    rw [cleanup_expired_auto_claude_disables,
      alGet_filter_nodup _ cd m hnd]
    cases alGet cd m with
    | none => rfl
    | some e =>
      by_cases he : now > e <;> simp [he]
  refine ⟨?_, ?_, ?_⟩
  · intro m hfe
    rw [get_best_clean, hfe]
    refine ⟨rfl, ?_⟩
    intro e hme
    have hlook := List.find?_some hfe
    have hnone : (alGet (cleanup_expired_auto_claude_disables now cd)
        m).isNone := by
      exact Bool.and_elim_left hlook
    rw [hclean m, hme] at hnone
    by_cases he : now > e
    · exact he
    · simp [he] at hnone
  · intro hfe
    rw [get_best_clean, hfe]
  · intro m e hme hexp
    rw [get_best_clean]
    have h1 : alGet (cleanup_expired_auto_claude_disables now cd) m =
        none := by
      rw [hclean m, hme]
      simp [hexp]
    exact ⟨h1, by simp [is_model_available_for_auto_claude, h1]⟩

/-- Concrete state refuting C5 as stated: every priority model is
cooled down with expiry 100 while now is 50, yet the selection
returns the last priority model, whose expiry is in the future. -/
def c5AllCooled : Cooldowns := AUTO_CLAUDE_PRIORITY.map (fun m => (m, 100))

/-- Concrete full catalog for the C5 counterexample. -/
def c5FullCatalog : Catalog := AUTO_CLAUDE_PRIORITY.map (fun m => (m, m))

/-- Counterexample to C5 as stated: with all models cooled down
(expiry 100, now 50), the selection returns a model whose cooldown
expiry is still in the future. -/
theorem auto_selection_future_cooldown_counterexample :
    alGet c5AllCooled
        (get_best_available_claude_model 50 c5FullCatalog c5AllCooled).1 =
      some 100 ∧ 50 < 100 := by decide

/-- Concrete cooldown table for the C5 witness: the top model
expired at 10, now is 50. -/
def c5wCd : Cooldowns := [("claude-opus-4-1-20250805-thinking-16k", 10)]

/-- Witness for C5: at the concrete state, the hypotheses hold and
the first conjunct applies to the top priority model. -/
theorem auto_selection_respects_cooldowns_witness :
    (c5wCd.map Prod.fst).Nodup ∧
    (firstEligible c5FullCatalog
        (cleanup_expired_auto_claude_disables 50 c5wCd) =
      some "claude-opus-4-1-20250805-thinking-16k" →
      (get_best_available_claude_model 50 c5FullCatalog c5wCd).1 =
        "claude-opus-4-1-20250805-thinking-16k" ∧
      ∀ e, alGet c5wCd "claude-opus-4-1-20250805-thinking-16k" = some e →
        50 > e) :=
  ⟨by decide,
    (auto_selection_respects_cooldowns 50 c5FullCatalog c5wCd
      (by decide)).1 "claude-opus-4-1-20250805-thinking-16k"⟩

/-! ## Claim C10: exhausted usage limit -/

theorem alGet_ne_nil {α : Type} {d : List (String × α)} {k : String}
    {v : α} (h : alGet d k = some v) : d.isEmpty = false := by
  cases d with
  | nil => simp [alGet] at h
  | cons q rest => rfl

/-- C10.  For every managed (non-global) API key with a non-null
usage_limit, once its usage_count has reached the limit, key
validation reports it invalid, so any subsequent chat-completion
request bearing that key is rejected with HTTP 401 and the key's
usage counter is not incremented further. -/
theorem exhausted_key_rejected_401
    (st : ServerState) (req : ChatRequest) (request_id k : String)
    (kd : KeyData) (l : Nat)
    (hbody : req.bodyOk = true)
    (htok : req.bearerToken = some k)
    (hne : k ≠ "")
    (hkd : alGet st.keys k = some kd)
    (hglobal : st.cfg.api_key ≠ some k)
    (henabled : kd.enabled = true)
    (hlim : kd.usage_limit = some l)
    (hcount : l ≤ kd.usage_count) :
    validate_api_key st.cfg.api_key st.catalog st.keys k req.body.model =
      .invalid "Límite de usos excedido" ∧
    (chat_completions st req request_id).result =
      .httpError (httpErr 401 "Límite de usos excedido") ∧
    (chat_completions st req request_id).state.keys = st.keys := by
  have hval : validate_api_key st.cfg.api_key st.catalog st.keys k
      req.body.model = .invalid "Límite de usos excedido" := by
    have hkE : k.isEmpty = false := by
      rw [Bool.eq_false_iff]
      intro h
      exact hne ((String.isEmpty_iff k).mp h)
    simp only [validate_api_key, hkE, Bool.false_eq_true, if_false,
      hglobal, hkd, henabled, hlim]
    simp [Option.elim, Nat.le_of_eq, hcount, Nat.le_trans]
  have hkne : st.keys.isEmpty = false := alGet_ne_nil hkd
  refine ⟨hval, ?_, ?_⟩ <;>
    simp [chat_completions, hbody, htok, hval, hkne]

/-- Concrete exhausted key for the C10 witness. -/
def c10kd : KeyData :=
  { enabled := true, usage_limit := some 2, usage_count := 2,
    models := [] }

/-- Concrete server state for the C10 witness. -/
def c10st : ServerState :=
  { cfg := {}, catalog := [("claude-3-5-sonnet-20241022", "mid1")],
    keys := [("sk-test", c10kd)], endpointMap := [], cooldowns := [],
    activeAuto := [], browserConnected := true, now := 0 }

/-- Concrete request for the C10 witness. -/
def c10req : ChatRequest :=
  { bodyOk := true, bearerToken := some "sk-test",
    body := { model := some "claude-3-5-sonnet-20241022" } }

/-- Witness for C10 at the concrete exhausted key. -/
theorem exhausted_key_rejected_401_witness :
    (alGet c10st.keys "sk-test" = some c10kd ∧
      c10kd.usage_limit = some 2 ∧ 2 ≤ c10kd.usage_count) ∧
    ((chat_completions c10st c10req "rid").result =
        .httpError (httpErr 401 "Límite de usos excedido") ∧
      (chat_completions c10st c10req "rid").state.keys = c10st.keys) :=
  ⟨⟨by decide, by decide, by decide⟩,
    (exhausted_key_rejected_401 c10st c10req "rid" "sk-test" c10kd 2
      (by decide) (by decide) (by decide) (by decide) (by decide)
      (by decide) (by decide) (by decide)).2⟩

/-! ## Claim C6: 503 when the browser slot is empty -/

theorem postAuth_browser_absent (st1 : ServerState)
    (req : ChatRequest) (request_id : String) (tr1 : List Effect)
    (hb : st1.browserConnected = false) :
    postAuth st1 req request_id tr1 =
      { result := .httpError (httpErr 503 browserNotConnectedDetail),
        state := st1, trace := tr1 } := by
  unfold postAuth
  rw [hb]
  rfl

/-- C6, amended.  The browser-connection check runs after key
verification, not before it: when no browser is connected, a request
whose body parses is answered 503 only if authentication is not
configured or the presented bearer token validates; a request with
an invalid token receives 401 even though the browser is absent. -/
theorem browser_503_after_auth
    (st : ServerState) (req : ChatRequest) (request_id : String)
    (hbody : req.bodyOk = true)
    (hbrowser : st.browserConnected = false) :
    ((pyTruthyStr st.cfg.api_key || !st.keys.isEmpty) = false →
      (chat_completions st req request_id).result =
        .httpError (httpErr 503 browserNotConnectedDetail)) ∧
    ((pyTruthyStr st.cfg.api_key || !st.keys.isEmpty) = true →
      ∀ k g kd, req.bearerToken = some k →
      validate_api_key st.cfg.api_key st.catalog st.keys k
        req.body.model = .valid g kd →
      (chat_completions st req request_id).result =
        .httpError (httpErr 503 browserNotConnectedDetail)) := by
  constructor
  · intro hauth
    have happ : chat_completions st req request_id =
        postAuth st req request_id [.bodyParsed] := by
      simp [chat_completions, hbody, hauth]
    rw [happ, postAuth_browser_absent _ _ _ _ hbrowser]
  · intro hauth k g kd htok hval
    have h' : pyTruthyStr st.cfg.api_key = true ∨ ¬st.keys = [] := by
      rcases (Bool.or_eq_true _ _).mp hauth with h | h
      · exact Or.inl h
      · right
        intro hk
        rw [hk] at h
        simp at h
    have happ : chat_completions st req request_id =
        postAuth { st with
            keys := (increment_api_key_usage st.cfg.api_key st.keys k).1 }
          req request_id
          (Effect.bodyParsed :: Effect.authOk k ::
            (if (increment_api_key_usage st.cfg.api_key st.keys k).2 then
              [Effect.usageBumped k] else [])) := by
      simp [chat_completions, hbody, htok, hval, h']
    rw [happ, postAuth_browser_absent _ _ _ _ (by simpa using hbrowser)]

/-- Concrete state for the C6 counterexample: one managed key
exists, the browser slot is empty. -/
def c6st : ServerState :=
  { cfg := {}, catalog := [("claude-3-5-sonnet-20241022", "mid1")],
    keys := [("sk-good", {})], endpointMap := [], cooldowns := [],
    activeAuto := [], browserConnected := false, now := 0 }

/-- Concrete request with an invalid bearer token. -/
def c6req : ChatRequest :=
  { bodyOk := true, bearerToken := some "sk-bad",
    body := { model := some "claude-3-5-sonnet-20241022" } }

/-- Counterexample to C6 as stated: the browser slot is empty, yet
the request with an invalid bearer token receives 401, not 503, so
the 503 is not issued before authentication is considered. -/
theorem browser_503_counterexample :
    c6st.browserConnected = false ∧
    (chat_completions c6st c6req "rid").result =
      .httpError (httpErr 401 "API key inválida") := by decide

/-- Concrete state for the C6 witness: no keys configured at all,
browser absent. -/
def c6wst : ServerState :=
  { cfg := {}, catalog := [("claude-3-5-sonnet-20241022", "mid1")],
    keys := [], endpointMap := [], cooldowns := [],
    activeAuto := [], browserConnected := false, now := 0 }

/-- Witness for C6: with authentication unconfigured and the browser
absent, the request is answered 503. -/
theorem browser_503_after_auth_witness :
    (pyTruthyStr c6wst.cfg.api_key || !c6wst.keys.isEmpty) = false ∧
    (chat_completions c6wst c6req "rid").result =
      .httpError (httpErr 503 browserNotConnectedDetail) :=
  ⟨by decide,
    (browser_503_after_auth c6wst c6req "rid" (by decide) (by decide)).1
      (by decide)⟩

/-! ## Claim C7: exactly one usage increment per dispatch -/

theorem alGet_alSet_self {α : Type} (d : List (String × α))
    (k : String) (v : α) : alGet (alSet d k v) k = some v := by
  induction d with
  | nil => simp [alSet, alGet]
  | cons q rest ih =>
    obtain ⟨k', v'⟩ := q
    by_cases hk : k' = k <;> simp [alSet, alGet, hk, ih]

theorem postAuth_dispatched (st1 : ServerState) (req : ChatRequest)
    (request_id : String) (tr1 : List Effect) (d : Dispatch)
    (hres : (postAuth st1 req request_id tr1).result = .dispatched d) :
    (postAuth st1 req request_id tr1).state.keys = st1.keys ∧
    (postAuth st1 req request_id tr1).trace =
      tr1 ++ [.channelCreated request_id, .payloadTranslated,
        .sentToBrowser] := by
  cases hb : st1.browserConnected with
  | false =>
    rw [postAuth_browser_absent _ _ _ _ hb] at hres
    simp at hres
  | true =>
    cases hrs : resolveSession
        (autoChoose st1 req.body.model request_id).2
        (autoChoose st1 req.body.model request_id).1 with
    | error e =>
      have heq : postAuth st1 req request_id tr1 =
          { result := .httpError e,
            state := (autoChoose st1 req.body.model request_id).2,
            trace := tr1 } := by
        unfold postAuth
        rw [hb, hrs]
        rfl
      rw [heq] at hres
      simp at hres
    | ok ids =>
      have heq : postAuth st1 req request_id tr1 =
          { result := .dispatched
              { request_id := request_id,
                payload := convert_openai_to_lmarena_payload
                  (autoChoose st1 req.body.model request_id).2.cfg
                  (autoChoose st1 req.body.model request_id).2.catalog
                  req.body ids.1 ids.2.1 ids.2.2.1 ids.2.2.2
                  (req.body.model = some "auto-claude"),
                is_stream := req.body.stream.getD true,
                model_name :=
                  (autoChoose st1 req.body.model request_id).1 },
            state := (autoChoose st1 req.body.model request_id).2,
            trace := tr1 ++ [.channelCreated request_id,
              .payloadTranslated, .sentToBrowser] } := by
        unfold postAuth
        rw [hb, hrs]
        rfl
      rw [heq]
      refine ⟨?_, rfl⟩
      show (autoChoose st1 req.body.model request_id).2.keys = st1.keys
      unfold autoChoose
      split <;> rfl

/-- C7.  For every chat-completion call with a managed key, the
per-key usage counter is incremented exactly once per successful
dispatch — the effect trace holds a single increment, placed after
authentication and before payload translation — and a GET /v1/models
call never increments any key's usage counter. -/
theorem usage_incremented_once_per_dispatch
    (st : ServerState) (req : ChatRequest) (request_id k : String)
    (kd kd' : KeyData) (g : Bool)
    (hbody : req.bodyOk = true)
    (htok : req.bearerToken = some k)
    (hkd : alGet st.keys k = some kd)
    (hglobal : st.cfg.api_key ≠ some k)
    (hval : validate_api_key st.cfg.api_key st.catalog st.keys k
      req.body.model = .valid g kd') :
    (∀ d, (chat_completions st req request_id).result = .dispatched d →
      (chat_completions st req request_id).state.keys =
        alSet st.keys k { kd with usage_count := kd.usage_count + 1 } ∧
      alGet (chat_completions st req request_id).state.keys k =
        some { kd with usage_count := kd.usage_count + 1 } ∧
      (chat_completions st req request_id).trace =
        [.bodyParsed, .authOk k, .usageBumped k,
          .channelCreated request_id, .payloadTranslated,
          .sentToBrowser]) ∧
    (∀ (st' : ServerState) (tok : Option String),
      (get_models st' tok).keys = st'.keys ∧
      ∀ k', Effect.usageBumped k' ∉ (get_models st' tok).trace) := by
  have hbump : increment_api_key_usage st.cfg.api_key st.keys k =
      (alSet st.keys k { kd with usage_count := kd.usage_count + 1 },
        true) := by
    simp [increment_api_key_usage, hglobal, hkd]
  have hkne : ¬st.keys = [] := by
    intro hk
    rw [hk] at hkd
    simp [alGet] at hkd
  have h' : pyTruthyStr st.cfg.api_key = true ∨ ¬st.keys = [] :=
    Or.inr hkne
  have happ : chat_completions st req request_id =
      postAuth
        { st with keys := alSet st.keys k { kd with usage_count := kd.usage_count + 1 } }
        req request_id [.bodyParsed, .authOk k, .usageBumped k] := by
    simp [chat_completions, hbody, htok, hval, hbump, h']
  constructor
  · intro d hres
    rw [happ] at hres ⊢
    have hsk := postAuth_dispatched _ _ _ _ _ hres
    refine ⟨by rw [hsk.1], ?_, by rw [hsk.2]; rfl⟩
    rw [hsk.1]
    exact alGet_alSet_self _ _ _
  · intro st' tok
    constructor
    · unfold get_models
      repeat' split
      all_goals rfl
    · intro k' hmem
      unfold get_models at hmem
      repeat' split at hmem
      all_goals simp at hmem

/-- Concrete state for the C7 witness: managed key, browser
connected, global default session ids configured. -/
def c7st : ServerState :=
  { cfg := { session_id := some "sess1", message_id := some "msg1" },
    catalog := [("claude-3-5-sonnet-20241022", "mid1")],
    keys := [("sk-test", {})], endpointMap := [], cooldowns := [],
    activeAuto := [], browserConnected := true, now := 0 }

/-- Concrete request for the C7 witness. -/
def c7req : ChatRequest :=
  { bodyOk := true, bearerToken := some "sk-test",
    body := { model := some "claude-3-5-sonnet-20241022",
              messages := [{ role := "user",
                             content := .str "hi" }] } }

/-- Witness for C7 at the concrete dispatched request. -/
theorem usage_incremented_once_per_dispatch_witness :
    alGet c7st.keys "sk-test" = some {} ∧
    (chat_completions c7st c7req "rid").trace =
      [.bodyParsed, .authOk "sk-test", .usageBumped "sk-test",
        .channelCreated "rid", .payloadTranslated, .sentToBrowser] := by
  refine ⟨by decide, ?_⟩
  obtain ⟨d, hd⟩ :
      ∃ d, (chat_completions c7st c7req "rid").result = .dispatched d :=
    ⟨_, rfl⟩
  exact ((usage_incremented_once_per_dispatch c7st c7req "rid" "sk-test"
    {} {} false (by decide) (by decide) (by decide) (by decide)
    (by decide)).1 d hd).2.2

/-! ## Claim C9: disconnect broadcast -/

/-- C9.  When the browser socket connection is lost or replaced, the
multiplexer clears the connection slot and every entry present in
the request-channel table receives a disconnect-error sentinel
before the table is cleared, so no request channel survives the
disconnect without having been notified. -/
theorem disconnect_notifies_every_channel (st : MuxState) :
    (websocket_cleanup st).1.browser_ws = none ∧
    (websocket_cleanup st).1.response_channels = [] ∧
    ∀ rid q, (rid, q) ∈ st.response_channels →
      (rid, q ++ [disconnectSentinel]) ∈ (websocket_cleanup st).2 := by
  refine ⟨rfl, rfl, ?_⟩
  intro rid q hmem
  exact List.mem_map_of_mem
    (fun p => (p.1, p.2 ++ [disconnectSentinel])) hmem

/-! ## Claim C4: assistant prefill extraction -/

/-- C4, amended.  When assistant prefill is enabled and the last
(role-normalized) message has role assistant with string content p,
that message is removed from the message list and p becomes
assistantPrefill; in streaming mode, when p is nonempty, the first
SSE content delta is exactly p, emitted before any browser content;
when prefill is disabled, the final assistant message's role is
instead rewritten to user and the prefill is empty. -/
theorem assistant_prefill_extraction (cfg : Config) (catalog : Catalog)
    (openai : OARequest) (sid mid : String) (mo bo : Option String)
    (ia : Bool) (last : OAMessage) (p : String)
    (hlast : (openai.messages.map normalizeRole).getLast? = some last)
    (hrole : last.role = "assistant")
    (hcontent : last.content = .str p) :
    (cfg.assistant_prefill_enabled.getD true = true →
      (convert_openai_to_lmarena_payload cfg catalog openai sid mid mo
        bo ia).assistant_prefill = .str p ∧
      (convert_openai_to_lmarena_payload cfg catalog openai sid mid mo
        bo ia).message_templates =
        buildTemplates cfg mo bo
          (openai.messages.map normalizeRole).dropLast) ∧
    (p ≠ "" → ∀ events,
      (stream_generator (.str p) events).head? =
        some (Chunk.content (.str p))) ∧
    (cfg.assistant_prefill_enabled.getD true = false →
      (convert_openai_to_lmarena_payload cfg catalog openai sid mid mo
        bo ia).assistant_prefill = .str "" ∧
      (convert_openai_to_lmarena_payload cfg catalog openai sid mid mo
        bo ia).message_templates =
        buildTemplates cfg mo bo
          ((openai.messages.map normalizeRole).dropLast ++
            [{ last with role := "user" }])) := by
  refine ⟨?_, ?_, ?_⟩
  · intro hen
    constructor <;>
      simp [convert_openai_to_lmarena_payload, extractAssistantPrefills,
        hlast, hrole, hcontent, hen]
  · intro hp events
    have ht : (OAContent.str p).truthy = true := by
      simp [OAContent.truthy]
      rw [Bool.eq_false_iff]
      intro h
      exact hp ((String.isEmpty_iff p).mp h)
    simp [stream_generator, ht]
  · intro hen
    constructor <;>
      simp [convert_openai_to_lmarena_payload, extractAssistantPrefills,
        hlast, hrole, hcontent, hen]

/-- Concrete request whose trailing assistant message is empty. -/
def c4req : OARequest :=
  { model := none,
    messages := [{ role := "user", content := .str "hi" },
                 { role := "assistant", content := .str "" }] }

/-- Counterexample to C4 as stated: with an empty trailing assistant
message, the extracted prefill is the empty string and the first SSE
content delta is the first browser chunk, not the prefill text. -/
theorem assistant_prefill_counterexample :
    (convert_openai_to_lmarena_payload {} [] c4req "s" "m" none none
      false).assistant_prefill = .str "" ∧
    (stream_generator
        (convert_openai_to_lmarena_payload {} [] c4req "s" "m" none
          none false).assistant_prefill
        [Event.content "Hello"]).head? =
      some (Chunk.content (.str "Hello")) ∧
    OAContent.str "Hello" ≠ OAContent.str "" := by decide

/-- Concrete request ending in the prefill Sure-comma-space. -/
def c4wreq : OARequest :=
  { model := none,
    messages := [{ role := "user", content := .str "hi" },
                 { role := "assistant", content := .str "Sure, " }] }

/-- Witness for C4 at the concrete prefill request. -/
theorem assistant_prefill_extraction_witness :
    ((({} : Config).assistant_prefill_enabled.getD true = true →
      (convert_openai_to_lmarena_payload {} [] c4wreq "s" "m" none
        none false).assistant_prefill = .str "Sure, " ∧
      (convert_openai_to_lmarena_payload {} [] c4wreq "s" "m" none
        none false).message_templates =
        buildTemplates {} none none
          (c4wreq.messages.map normalizeRole).dropLast) ∧
    ("Sure, " ≠ "" → ∀ events,
      (stream_generator (.str "Sure, ") events).head? =
        some (Chunk.content (.str "Sure, ")))) :=
  ⟨(assistant_prefill_extraction {} [] c4wreq "s" "m" none none false
      { role := "assistant", content := .str "Sure, " } "Sure, "
      (by decide) (by decide) (by decide)).1,
    (assistant_prefill_extraction {} [] c4wreq "s" "m" none none false
      { role := "assistant", content := .str "Sure, " } "Sure, "
      (by decide) (by decide) (by decide)).2.1⟩

/-! ## Claim C8: bypass sentinel -/

/-- The sentinel template annotated with a participant position. -/
def sentinelWithPos (pos : String) : Template :=
  { role := "user", content := " ", attachments := [],
    participantPosition := some pos }

/-- C8, amended.  With bypass mode enabled, the appended sentinel (a
single-space user turn) is always the last entry of the final
message templates; its participantPosition is the letter a in
direct-chat mode, but in battle mode the position loop overwrites it
with the lowercased battle target, so a battle session targeting B
gives the sentinel position b. -/
theorem bypass_sentinel_last_and_position (cfg : Config)
    (catalog : Catalog) (openai : OARequest) (sid mid : String)
    (mo bo : Option String) (ia : Bool)
    (hbp : cfg.bypass_enabled.getD false = true) :
    ((convert_openai_to_lmarena_payload cfg catalog openai sid mid mo
      bo ia).message_templates).getLast? =
      some (sentinelWithPos
        (if pyOr mo (cfg.id_updater_last_mode.getD "direct_chat") =
            "battle" then
          pyLower (pyOr bo (cfg.id_updater_battle_target.getD "A"))
        else "a")) := by
  simp only [convert_openai_to_lmarena_payload, buildTemplates, hbp,
    if_true, assignPositions, List.map_append]
  rw [show ∀ (l1 l2 : List Template), l1 ++ l2 = l1 ++ l2 from
    fun _ _ => rfl]
  rw [List.map_cons, List.map_nil, List.getLast?_concat]
  simp only [bypassSentinel, sentinelWithPos]
  by_cases hmode :
      pyOr mo (cfg.id_updater_last_mode.getD "direct_chat") =
        "battle" <;>
    simp [hmode]

/-- Cfg for the C8 counterexample: bypass on, battle mode, target B. -/
def c8cfg : Config :=
  { bypass_enabled := some true, id_updater_last_mode := some "battle",
    id_updater_battle_target := some "B" }

/-- Counterexample to C8 as stated: in battle mode with target B the
sentinel's participantPosition is b, not a. -/
theorem bypass_sentinel_counterexample :
    ((convert_openai_to_lmarena_payload c8cfg [] { messages := [] }
      "s" "m" none none false).message_templates).getLast? =
      some (sentinelWithPos "b") ∧
    ("b" : String) ≠ "a" := by decide

/-- Cfg for the C8 witness: bypass on, direct chat. -/
def c8wcfg : Config := { bypass_enabled := some true }

/-- Witness for C8 in direct-chat mode: the sentinel is last with
position a. -/
theorem bypass_sentinel_last_and_position_witness :
    c8wcfg.bypass_enabled.getD false = true ∧
    ((convert_openai_to_lmarena_payload c8wcfg [] { messages := [] }
      "s" "m" none none false).message_templates).getLast? =
      some (sentinelWithPos
        (if pyOr none (c8wcfg.id_updater_last_mode.getD
            "direct_chat") = "battle" then
          pyLower (pyOr none (c8wcfg.id_updater_battle_target.getD
            "A"))
        else "a")) :=
  ⟨by decide,
    bypass_sentinel_last_and_position c8wcfg [] { messages := [] }
      "s" "m" none none false (by decide)⟩

/-! ## Stream parser theorems: frame builders and well-formedness -/

/-- The wire form of one content line on lane a or b. -/
def contentLine (lane : Char) (esc : Chars) : Chars :=
  lane :: '0' :: ':' :: qc :: esc ++ [qc]

/-- A frame carrying exactly one content line. -/
def contentFrame (lane : Char) (esc : Chars) : Frame :=
  .text (String.mk (contentLine lane esc))

/-- The DONE sentinel frame. -/
def doneFrame : Frame := .text doneMarker

/-- The wire form of a finish line with the given reason. -/
def finishLine (r : String) : Chars :=
  'a' :: 'd' :: ':' :: lb :: qc :: "finishReason".data ++
    [qc, ':', qc] ++ r.data ++ [qc, rb]

/-- A frame carrying exactly one finish line. -/
def finishFrame (r : String) : Frame := .text (String.mk (finishLine r))

/-- Well-formedness of an escaped content body: no unescaped quote
or backslash, every backslash followed by a non-newline character.
Exactly the bodies on which the text regex closes at the final
quote. -/
def escOk : Chars → Bool
  | [] => true
  | c :: rest =>
    if c = qc then false
    else if c = bs then
      match rest with
      | [] => false
      | c2 :: rest2 => if c2 = nl then false else escOk rest2
    else escOk rest

/-- A clean content line: a real lane, a well-formed body that
decodes, and no rate-limit, Cloudflare, or error-object pattern in
either the wire form or the decoded fragment. -/
def cleanLine (le : Char × Chars) : Bool :=
  (le.1 = 'a' || le.1 = 'b') && escOk le.2 &&
  (match unescapeChars le.2 with
   | some t => !detect_rate_limit_error (String.mk t)
   | none => false) &&
  !detect_rate_limit_error (String.mk (contentLine le.1 le.2)) &&
  !cloudflareHit (String.mk (contentLine le.1 le.2)) &&
  (findErrMatch (contentLine le.1 le.2)).isNone

/-- The content events a clean sequence of content lines produces:
one per nonempty decoded fragment. -/
def contentEvents (lines : List (Char × Chars)) : List Event :=
  lines.flatMap (fun le =>
    match unescapeChars le.2 with
    | some t => if t.isEmpty then [] else [Event.content (String.mk t)]
    | none => [])

/-- The decoded text of a sequence of content lines. -/
def decodedText (lines : List (Char × Chars)) : Chars :=
  lines.flatMap (fun le => (unescapeChars le.2).getD [])

/-- The finish reason stream_generator would send after a sequence
of events: the last recorded finish reason, starting from the
default. -/
def lastFinish (r : String) : List Event → String
  | [] => r
  | .finish x :: es => lastFinish x es
  | _ :: es => lastFinish r es

/-! ## Stream parser theorems: step lemmas -/

theorem scanBody_append : ∀ (esc r : Chars), escOk esc = true →
    scanBody (esc ++ qc :: r) = some (esc, r)
  | [], r, _ => by
    simp only [List.nil_append]
    unfold scanBody
    rw [if_pos rfl]
  | c :: rest, r, h => by
    unfold escOk at h
    by_cases hq : c = qc
    · rw [if_pos hq] at h
      exact absurd h (by simp)
    · rw [if_neg hq] at h
      by_cases hb : c = bs
      · rw [if_pos hb] at h
        cases rest with
        | nil =>
          dsimp only at h
          exact absurd h (by simp)
        | cons c2 rest2 =>
          dsimp only at h
          by_cases hn : c2 = nl
          · rw [if_pos hn] at h
            exact absurd h (by simp)
          · rw [if_neg hn] at h
            have ih := scanBody_append rest2 r h
            show scanBody (c :: c2 :: (rest2 ++ qc :: r)) = _
            unfold scanBody
            rw [if_neg hq, if_pos hb]
            dsimp only
            rw [if_neg hn, ih]
            rfl
      · rw [if_neg hb] at h
        have ih := scanBody_append rest r h
        show scanBody (c :: (rest ++ qc :: r)) = _
        unfold scanBody
        rw [if_neg hq, if_neg hb, ih]
        rfl

theorem findTextMatch_contentLine (lane : Char) (esc : Chars)
    (hlane : lane = 'a' ∨ lane = 'b') (hesc : escOk esc = true) :
    findTextMatch (contentLine lane esc) = some ([], esc, []) := by
  have hscan : scanBody (esc ++ [qc]) = some (esc, []) :=
    scanBody_append esc [] hesc
  have htry : tryTextAt (contentLine lane esc) = some (esc, []) := by
    show tryTextAt (lane :: '0' :: ':' :: qc :: (esc ++ [qc])) = _
    unfold tryTextAt
    rcases hlane with h | h <;> simp [h, hscan]
  unfold contentLine at htry ⊢
  show (match tryTextAt (lane :: '0' :: ':' :: qc :: esc ++ [qc]) with
    | some (body, after) => some (([] : Chars), body, after)
    | none => (findTextMatch ('0' :: ':' :: qc :: esc ++ [qc])).map
        (fun r => (lane :: r.1, r.2.1, r.2.2))) = some ([], esc, [])
  rw [htry]

theorem processFrames_done (reqId : String) (mname : Option String)
    (timeout : Nat) (ctx : ParserCtx) (buf : Chars)
    (rest : List Frame) :
    processFrames reqId mname timeout ctx buf (doneFrame :: rest) =
      ([], ctx, []) := rfl

theorem processFrames_exhausted (reqId : String)
    (mname : Option String) (timeout : Nat) (ctx : ParserCtx)
    (buf : Chars) :
    processFrames reqId mname timeout ctx buf [] =
      ([.error (timeoutMessage timeout)], ctx, []) := rfl

theorem mk_data (l : Chars) : (String.mk l).data = l := rfl

theorem mk_cons_isEmpty (c : Char) (l : Chars) :
    (String.mk (c :: l)).isEmpty = false := by
  rw [Bool.eq_false_iff]
  intro h
  have h2 := (String.isEmpty_iff _).mp h
  exact absurd (congrArg String.data h2) (by simp)

theorem consumeTexts_nil (mname : Option String) (emap : EndpointMap)
    (fuel : Nat) : consumeTexts mname emap fuel [] = .ok [] [] := by
  cases fuel with
  | zero => rfl
  | succ n => rfl

theorem contentLine_ne_done (lane : Char) (esc : Chars) :
    ¬(String.mk (contentLine lane esc) = doneMarker) := by
  intro he
  have hdata := congrArg String.data he
  rw [mk_data] at hdata
  unfold contentLine at hdata
  rw [show doneMarker.data = ['[', 'D', 'O', 'N', 'E', ']'] from rfl]
    at hdata
  simp at hdata

/-- Processing one clean content frame from an empty buffer: the
decoded fragment (when nonempty) is emitted as a content event and
the loop goes on to the remaining frames with an empty buffer and an
unchanged context. -/
theorem processFrames_content_step (reqId : String)
    (mname : Option String) (timeout : Nat) (ctx : ParserCtx)
    (rest : List Frame) (lane : Char) (esc tcs : Chars)
    (hlane : lane = 'a' ∨ lane = 'b')
    (hesc : escOk esc = true)
    (ht : unescapeChars esc = some tcs)
    (hdet : detect_rate_limit_error (String.mk tcs) = false)
    (hdetL : detect_rate_limit_error
      (String.mk (contentLine lane esc)) = false)
    (hcf : cloudflareHit (String.mk (contentLine lane esc)) = false)
    (herr : findErrMatch (contentLine lane esc) = none) :
    processFrames reqId mname timeout ctx []
        (contentFrame lane esc :: rest) =
      ((if tcs.isEmpty then [] else [Event.content (String.mk tcs)]) ++
        (processFrames reqId mname timeout ctx [] rest).1,
       (processFrames reqId mname timeout ctx [] rest).2.1,
       (processFrames reqId mname timeout ctx [] rest).2.2) := by
  have hs := contentLine_ne_done lane esc
  have hft := findTextMatch_contentLine lane esc hlane hesc
  have hchunk : processChunk mname ctx (contentLine lane esc) =
      .more (if tcs.isEmpty then []
        else [Event.content (String.mk tcs)]) ctx [] [] := by
    unfold processChunk
    simp only [hdetL, hcf, herr, Bool.false_eq_true, if_false]
    have hct : consumeTexts mname ctx.endpointMap
        ((contentLine lane esc).length + 1) (contentLine lane esc) =
        .ok (if tcs.isEmpty then []
          else [Event.content (String.mk tcs)]) [] := by
      rw [consumeTexts, hft]
      dsimp only
      rw [ht]
      dsimp only
      cases tcs with
      | nil =>
        simp only [show (String.mk ([] : Chars)).isEmpty = true from
          rfl, if_true, consumeTexts_nil, List.isEmpty_nil]
      | cons c ts =>
        simp only [mk_cons_isEmpty, Bool.false_eq_true, if_false,
          hdet, consumeTexts_nil, List.isEmpty_cons]
    rw [hct]
    rfl
  simp only [contentFrame, processFrames]
  rw [if_neg hs]
  simp only [List.nil_append, mk_data, hchunk]

theorem mk_sdata (s : String) : String.mk s.data = s := rfl

theorem mk_append (a b : Chars) :
    String.mk (a ++ b) = String.mk a ++ String.mk b := rfl

/-- Processing one frame whose scans find neither content, error,
rate-limit nor Cloudflare patterns but exactly one finish match that
consumes the whole buffer: the finish reason is recorded as an event
and the loop keeps draining the remaining frames — a finish frame
does not terminate parsing. -/
theorem processFrames_finish_step (reqId : String)
    (mname : Option String) (timeout : Nat) (ctx : ParserCtx)
    (rest : List Frame) (s : String) (g : Chars)
    (obj : List (String × String)) (r : String)
    (h1 : detect_rate_limit_error s = false)
    (h2 : cloudflareHit s = false)
    (h3 : findErrMatch s.data = none)
    (h4 : findTextMatch s.data = none)
    (h5 : findFinishMatch s.data = some (g, []))
    (h6 : parseFlatObj g = some obj)
    (h7 : (alGet obj "finishReason").getD "stop" = r) :
    processFrames reqId mname timeout ctx [] (.text s :: rest) =
      (Event.finish r ::
        (processFrames reqId mname timeout ctx [] rest).1,
       (processFrames reqId mname timeout ctx [] rest).2.1,
       (processFrames reqId mname timeout ctx [] rest).2.2) := by
  have hs : ¬(s = doneMarker) := by
    intro he
    rw [he] at h5
    rw [show findFinishMatch doneMarker.data = none from rfl] at h5
    simp at h5
  have hchunk : processChunk mname ctx s.data =
      .more [Event.finish r] ctx [] [] := by
    unfold processChunk
    simp only [mk_sdata, h1, h2, h3, Bool.false_eq_true, if_false]
    have hct : consumeTexts mname ctx.endpointMap
        (s.data.length + 1) s.data = .ok [] s.data := by
      rw [consumeTexts, h4]
    rw [hct]
    dsimp only
    rw [h5]
    dsimp only
    rw [h6]
    dsimp only
    rw [h7]
    rfl
  simp only [processFrames]
  rw [if_neg hs]
  simp only [List.nil_append, hchunk, List.singleton_append]

/-- A whole clean content prelude processes to its content events
followed by the processing of the remaining frames. -/
theorem processFrames_contents (reqId : String)
    (mname : Option String) (timeout : Nat) (ctx : ParserCtx)
    (lines : List (Char × Chars)) (tail : List Frame)
    (h : ∀ le ∈ lines, cleanLine le = true) :
    processFrames reqId mname timeout ctx []
        (lines.map (fun le => contentFrame le.1 le.2) ++ tail) =
      (contentEvents lines ++
        (processFrames reqId mname timeout ctx [] tail).1,
       (processFrames reqId mname timeout ctx [] tail).2.1,
       (processFrames reqId mname timeout ctx [] tail).2.2) := by
  induction lines with
  | nil => simp [contentEvents]
  | cons le ls ih =>
    obtain ⟨lane, esc⟩ := le
    have hle := h (lane, esc) (List.mem_cons_self _ _)
    simp only [cleanLine, Bool.and_eq_true, Bool.or_eq_true,
      decide_eq_true_eq, Bool.not_eq_true', Option.isNone_iff_eq_none]
      at hle
    obtain ⟨⟨⟨⟨⟨hlane, hesc⟩, hdec⟩, hdetL⟩, hcf⟩, herr⟩ := hle
    cases hu : unescapeChars esc with
    | none => rw [hu] at hdec; simp at hdec
    | some tcs =>
      rw [hu] at hdec
      have hdet : detect_rate_limit_error (String.mk tcs) = false := by
        simpa using hdec
      have hstep := processFrames_content_step reqId mname timeout ctx
        ((ls.map (fun le => contentFrame le.1 le.2)) ++ tail)
        lane esc tcs hlane hesc hu hdet hdetL hcf herr
      have hrec := ih (fun le hmem => h le (List.mem_cons_of_mem _ hmem))
      simp only [List.map_cons, List.cons_append, hstep, hrec]
      simp [contentEvents, hu, List.append_assoc]

/-- contentDeltas distributes over chunk concatenation. -/
theorem contentDeltas_append (a b : List Chunk) :
    contentDeltas (a ++ b) = contentDeltas a ++ contentDeltas b := by
  induction a with
  | nil => simp [contentDeltas]
  | cons c rest ih =>
    simp [contentDeltas, ih, String.append_assoc]

/-- The SSE deltas of a clean content prelude concatenate to the
decoded text, in front of whatever the remaining events produce. -/
theorem sse_contentEvents (r : String) (lines : List (Char × Chars))
    (es2 : List Event) :
    contentDeltas (sseOfEvents r (contentEvents lines ++ es2)) =
      String.mk (decodedText lines) ++
        contentDeltas (sseOfEvents r es2) := by
  induction lines with
  | nil => simp [contentEvents, decodedText]
  | cons le ls ih =>
    rw [show contentEvents (le :: ls) =
      (match unescapeChars le.2 with
       | some t => if t.isEmpty then [] else [Event.content (String.mk t)]
       | none => []) ++ contentEvents ls from by simp [contentEvents]]
    rw [show decodedText (le :: ls) =
      (unescapeChars le.2).getD [] ++ decodedText ls from by
        simp [decodedText]]
    cases hu : unescapeChars le.2 with
    | none => simpa using ih
    | some tcs =>
      cases tcs with
      | nil => simpa using ih
      | cons c ts =>
        simp only [Option.getD_some, List.isEmpty_cons,
          Bool.false_eq_true, if_false, List.append_assoc,
          List.singleton_append, List.cons_append, List.nil_append]
        rw [show sseOfEvents r (Event.content (String.mk (c :: ts)) ::
            (contentEvents ls ++ es2)) =
          Chunk.content (.str (String.mk (c :: ts))) ::
            sseOfEvents r (contentEvents ls ++ es2) from rfl]
        rw [show contentDeltas
            (Chunk.content (.str (String.mk (c :: ts))) ::
              sseOfEvents r (contentEvents ls ++ es2)) =
          String.mk (c :: ts) ++
            contentDeltas (sseOfEvents r (contentEvents ls ++ es2))
          from rfl]
        rw [ih]
        rw [show (String.mk (c :: (ts ++ decodedText ls))) =
          String.mk (c :: ts) ++ String.mk (decodedText ls) from rfl]
        simp [String.append_assoc]

/-- The prefill prefix: deltas of stream_generator are the prefill
string followed by the event deltas (an empty prefill emits no
chunk and contributes nothing). -/
theorem stream_generator_deltas (p : String) (es : List Event) :
    contentDeltas (stream_generator (.str p) es) =
      p ++ contentDeltas (sseOfEvents "stop" es) := by
  unfold stream_generator
  cases hp : OAContent.truthy (.str p) with
  | false =>
    have hpe : p = "" := by
      simp [OAContent.truthy] at hp
      exact (String.isEmpty_iff p).mp hp
    subst hpe
    simp
  | true => simp [hp, contentDeltas]

/-- Without error or crash events, the SSE stream always ends with
one finish chunk carrying the last recorded finish reason. -/
theorem sse_last_finish (r : String) (es : List Event)
    (h : ∀ e ∈ es, (match e with
      | .error _ => False
      | .crash _ => False
      | _ => True)) :
    ∃ cs, sseOfEvents r es = cs ++ [Chunk.finishDone (lastFinish r es)] := by
  induction es generalizing r with
  | nil => exact ⟨[], rfl⟩
  | cons e rest ih =>
    have hrest := fun e' he' => h e' (List.mem_cons_of_mem _ he')
    cases e with
    | content s =>
      obtain ⟨cs, hcs⟩ := ih r hrest
      exact ⟨.content (.str s) :: cs, by simp [sseOfEvents, hcs, lastFinish]⟩
    | finish x =>
      obtain ⟨cs, hcs⟩ := ih x hrest
      refine ⟨(if x = "content-filter" then
        [Chunk.content (.str contentFilterNotice)] else []) ++ cs, ?_⟩
      simp [sseOfEvents, hcs, lastFinish]
    | error m => exact absurd (h _ (List.mem_cons_self _ _)) (by simp)
    | crash m => exact absurd (h _ (List.mem_cons_self _ _)) (by simp)

/-! ## Claim C3: finish frames do not terminate parsing -/

/-- C3.  A finish frame never terminates parsing: its finish reason
is recorded as an event and the parser keeps draining the remaining
frames; the DONE sentinel is the only natural end (it stops the loop
at once, while an exhausted queue is a timeout error); and the final
SSE finish chunk carries the last recorded finish reason, with
default stop. -/
theorem finish_records_and_keeps_draining :
    (∀ (reqId : String) (mname : Option String) (timeout : Nat)
      (ctx : ParserCtx) (rest : List Frame) (s : String) (g : Chars)
      (obj : List (String × String)) (r : String),
      detect_rate_limit_error s = false →
      cloudflareHit s = false →
      findErrMatch s.data = none →
      findTextMatch s.data = none →
      findFinishMatch s.data = some (g, []) →
      parseFlatObj g = some obj →
      (alGet obj "finishReason").getD "stop" = r →
      processFrames reqId mname timeout ctx [] (.text s :: rest) =
        (Event.finish r ::
          (processFrames reqId mname timeout ctx [] rest).1,
         (processFrames reqId mname timeout ctx [] rest).2.1,
         (processFrames reqId mname timeout ctx [] rest).2.2)) ∧
    (∀ (reqId : String) (mname : Option String) (timeout : Nat)
      (ctx : ParserCtx) (buf : Chars) (rest : List Frame),
      processFrames reqId mname timeout ctx buf (doneFrame :: rest) =
        ([], ctx, [])) ∧
    (∀ (reqId : String) (mname : Option String) (timeout : Nat)
      (ctx : ParserCtx) (buf : Chars),
      processFrames reqId mname timeout ctx buf [] =
        ([.error (timeoutMessage timeout)], ctx, [])) ∧
    (∀ (p : String) (es : List Event),
      (∀ e ∈ es, (match e with
        | .error _ => False
        | .crash _ => False
        | _ => True)) →
      ∃ cs, stream_generator (.str p) es =
        cs ++ [Chunk.finishDone (lastFinish "stop" es)]) := by
  refine ⟨?_, processFrames_done, processFrames_exhausted, ?_⟩
  · intro reqId mname timeout ctx rest s g obj r h1 h2 h3 h4 h5 h6 h7
    exact processFrames_finish_step reqId mname timeout ctx rest s g
      obj r h1 h2 h3 h4 h5 h6 h7
  · intro p es h
    obtain ⟨cs, hcs⟩ := sse_last_finish "stop" es h
    exact ⟨(if (OAContent.str p).truthy then
      [Chunk.content (.str p)] else []) ++ cs,
      by simp [stream_generator, hcs]⟩

/-- The group the finish regex captures on a one-line finish frame. -/
def finishGroup (r : String) : Chars :=
  lb :: (qc :: "finishReason".data ++ [qc]) ++
    (':' :: qc :: r.data ++ [qc, rb])

/-- A concrete parser context for witnesses. -/
def ctx0 : ParserCtx :=
  { endpointMap := [], activeAuto := [], cooldowns := [], catalog := [],
    browserConnected := true, now := 0 }

/-- Witness for C3: a concrete stop finish frame followed by DONE is
recorded and does not cut off the remaining frames. -/
theorem finish_records_and_keeps_draining_witness :
    findFinishMatch (String.mk (finishLine "stop")).data =
      some (finishGroup "stop", []) ∧
    processFrames "rid" none 360 ctx0 []
        (.text (String.mk (finishLine "stop")) :: [doneFrame]) =
      (Event.finish "stop" ::
        (processFrames "rid" none 360 ctx0 [] [doneFrame]).1,
       (processFrames "rid" none 360 ctx0 [] [doneFrame]).2.1,
       (processFrames "rid" none 360 ctx0 [] [doneFrame]).2.2) :=
  ⟨by decide,
    (finish_records_and_keeps_draining).1 "rid" none 360 ctx0
      [doneFrame] (String.mk (finishLine "stop")) (finishGroup "stop")
      [("finishReason", "stop")] "stop" (by decide) (by decide)
      (by decide) (by decide) (by decide) (by decide) (by decide)⟩

/-! ## Claim C2: delta concatenation -/

/-- C2, amended.  For every sequence of clean content frames — each
a well-formed single content line whose wire form and decoded
fragment are free of the inline rate-limit marker, the Cloudflare
patterns and the error-object pattern — terminated by the DONE
sentinel, the SSE content deltas concatenate to exactly the decoded
text, prefixed by the assistant prefill; with a trailing
content-filter finish frame the fixed explanatory suffix is
appended. -/
theorem stream_deltas_concatenate (reqId : String)
    (mname : Option String) (timeout : Nat) (ctx : ParserCtx)
    (p : String) (lines : List (Char × Chars))
    (hclean : ∀ le ∈ lines, cleanLine le = true) :
    contentDeltas (stream_generator (.str p)
        (processFrames reqId mname timeout ctx []
          (lines.map (fun le => contentFrame le.1 le.2) ++
            [doneFrame])).1) =
      p ++ String.mk (decodedText lines) ∧
    contentDeltas (stream_generator (.str p)
        (processFrames reqId mname timeout ctx []
          (lines.map (fun le => contentFrame le.1 le.2) ++
            [finishFrame "content-filter", doneFrame])).1) =
      p ++ String.mk (decodedText lines) ++ contentFilterNotice := by
  constructor
  · rw [processFrames_contents reqId mname timeout ctx lines
      [doneFrame] hclean]
    rw [processFrames_done]
    simp only [List.append_nil]
    rw [stream_generator_deltas]
    rw [show (contentEvents lines : List Event) =
      contentEvents lines ++ [] from (List.append_nil _).symm]
    rw [sse_contentEvents]
    simp [sseOfEvents, contentDeltas]
  · rw [processFrames_contents reqId mname timeout ctx lines
      [finishFrame "content-filter", doneFrame] hclean]
    have hfin := processFrames_finish_step reqId mname timeout ctx
      [doneFrame] (String.mk (finishLine "content-filter"))
      (finishGroup "content-filter")
      [("finishReason", "content-filter")] "content-filter"
      (by decide) (by decide) (by decide) (by decide) (by decide)
      (by decide) (by decide)
    rw [show (finishFrame "content-filter" : Frame) =
      .text (String.mk (finishLine "content-filter")) from rfl]
    rw [hfin, processFrames_done]
    simp only [List.append_nil]
    rw [stream_generator_deltas]
    rw [sse_contentEvents]
    simp [sseOfEvents, contentDeltas, String.append_assoc]

/-- The inline rate-limit 429 marker as a content fragment. -/
def rlText : String := "429 Too Many Requests"

/-- Counterexample to C2 as stated: a single content frame whose
decoded text is the literal 429 marker does not produce deltas
concatenating to that text — the buffer scan fires the rotation
path and the caller receives the rotation fallback notice instead. -/
theorem stream_deltas_counterexample :
    unescapeChars rlText.data = some rlText.data ∧
    contentDeltas (stream_generator (.str "")
        (processFrames "rid" none 360 ctx0 []
          [contentFrame 'a' rlText.data, doneFrame]).1) =
      fallbackRotationMessage ∧
    fallbackRotationMessage ≠ rlText := by
  refine ⟨by decide, by decide, by decide⟩

/-- Concrete clean lines for the C2 witness. -/
def c2lines : List (Char × Chars) :=
  [('a', "Hel".data), ('b', "lo".data)]

/-- Witness for C2: two concrete fragments concatenate to the full
text behind the prefill prefix. -/
theorem stream_deltas_concatenate_witness :
    (∀ le ∈ c2lines, cleanLine le = true) ∧
    contentDeltas (stream_generator (.str "Sure, ")
        (processFrames "rid" none 360 ctx0 []
          (c2lines.map (fun le => contentFrame le.1 le.2) ++
            [doneFrame])).1) =
      "Sure, " ++ String.mk (decodedText c2lines) :=
  ⟨by decide,
    (stream_deltas_concatenate "rid" none 360 ctx0 "Sure, " c2lines
      (by decide)).1⟩

end Bridge
